import Mathlib

/-!
Cloud-init drive preservation (`sdk_disks_cloudinit_fix.go`)

A shallow embedding of the Go package `disk` and a verification of its
specification.

* Go pointers are optional references into an explicit memory: `nil` is
  `none`, and a non-nil pointer is a `Ptr` that can load and store one cell of
  the memory.  Dereferencing `nil` is the outcome `Panic.nilDereference`.
* The functions mutate their arguments in place; here they take the memory
  before the call and return the memory after it.  A Go map is a reference as
  well, so the contents of `config` after the call are returned next to it.
-/

namespace disk

/-! ## Go values -/

/-- The run-time failure a Go program can meet in this package. -/
inductive Panic where
  | nilDereference
  deriving DecidableEq, Repr

/-- A dynamic Go value of type `interface{}`, as stored in the live
configuration map.  `str` is the dynamic type `string`; every other
constructor is a dynamic type for which the assertion `.(string)` fails. -/
inductive GoValue where
  | str (s : String)
  | null
  | bool (b : Bool)
  | number (n : Int)
  | other (tag : Nat)
  deriving DecidableEq, Repr

/-- The type assertion `v.(string)` in its comma-ok form. -/
def GoValue.asString : GoValue → Option String
  | GoValue.str s => some s
  | _ => none

/-- A Go `map[string]interface{}`: key and value pairs, the first pair
with a given key being the entry of that key.  The nil map is `[]`. -/
abbrev Config := List (String × GoValue)

/-- The map index expression `config[key]` in its comma-ok form. -/
def Config.get (config : Config) (key : String) : Option GoValue :=
  config.lookup key

/-- A Go `error` value. -/
abbrev Error := String

/-- Whether `pat` is read at the very start of `s`. -/
def startsWith : List Char → List Char → Bool
  | [], _ => true
  | _ :: _, [] => false
  | p :: ps, c :: cs => p == c && startsWith ps cs

/-- Whether `pat` is read somewhere in `s`. -/
def occursIn (pat : List Char) : List Char → Bool
  | [] => startsWith pat []
  | c :: cs => startsWith pat (c :: cs) || occursIn pat cs

/-- Go `strings.Contains(s, substr)`.  A Go string is taken to be valid UTF-8 and
is a Lean string; the pattern of this package is ASCII, for which containment by
bytes and by characters agree. -/
def strings.Contains (s substr : String) : Bool :=
  occursIn substr.data s.data

/-! ## Memory and pointers -/

/-- A non-nil Go pointer `*α` into a memory `σ`: how to load and how to
store its cell.  Both are `none` when the memory has no such cell. -/
structure Ptr (σ α : Type) where
  load : σ → Option α
  store : α → σ → Option σ

/-- The read `*p` of a possibly nil pointer. -/
def deref {σ α : Type} (p : Option (Ptr σ α)) (mem : σ) : Except Panic α :=
  match p with
  | none => Except.error Panic.nilDereference
  | some q =>
    match q.load mem with
    | none => Except.error Panic.nilDereference
    | some v => Except.ok v

/-- The write `*p = v` through a possibly nil pointer. -/
def assign {σ α : Type} (p : Option (Ptr σ α)) (v : α) (mem : σ) : Except Panic σ :=
  match p with
  | none => Except.error Panic.nilDereference
  | some q =>
    match q.store v mem with
    | none => Except.error Panic.nilDereference
    | some mem' => Except.ok mem'

/-- The address `&x` of a variable `x : α`, the memory being the variable. -/
def Ptr.var (α : Type) : Ptr α α where
  load := fun x => some x
  store := fun v _ => some v

/-- The address `&p.f` of the field `f` inside the structure `p` points to,
for non-nil `p`. -/
def Ptr.field {σ β α : Type} (p : Ptr σ β) (f : Ptr β α) : Ptr σ α where
  load := fun mem => (p.load mem).bind f.load
  store := fun v mem =>
    (p.load mem).bind fun b => (f.store v b).bind fun b' => p.store b' mem

/-- The structure a pointer-typed variable points to: a cell that exists
only while the variable is not nil. -/
def Ptr.pointee (β : Type) : Ptr (Option β) β where
  load := fun o => o
  store := fun v o => o.map fun _ => some v

/-- The address expression `&p.f` for a possibly nil `p`: evaluating it
dereferences `p`. -/
def fieldAddr {σ β α : Type} (p : Option (Ptr σ β)) (f : Ptr β α) (mem : σ) :
    Except Panic (Option (Ptr σ α)) := do
  let _ ← deref p mem
  return p.map fun q => q.field f

/-- The value of the pointer-typed field `p.f` for a possibly nil `p`: nil,
or a pointer to the structure the field points to. -/
def loadPtr {σ β γ : Type} (p : Option (Ptr σ β)) (f : Ptr β (Option γ)) (mem : σ) :
    Except Panic (Option (Ptr σ γ)) := do
  let _ ← deref p mem
  match ← deref (p.map fun q => q.field f) mem with
  | none => return none
  | some _ => return p.map fun q => (q.field f).field (Ptr.pointee γ)

/-! ## The markers of the storage update (`pveAPI`) -/

/-- Modelled from the spec: `pveAPI.QemuIdeStorage` is declared in the API
library, not in this package.  A pending mutation marker of an IDE slot:
the flag `Delete` and, in `rest`, whatever else the marker carries. -/
structure QemuIdeStorage where
  Delete : Bool
  rest : Nat
  deriving DecidableEq, Repr

/-- Modelled from the spec: `pveAPI.QemuSataStorage`, the marker of a SATA
slot. -/
structure QemuSataStorage where
  Delete : Bool
  rest : Nat
  deriving DecidableEq, Repr

/-- Modelled from the spec: `pveAPI.QemuScsiStorage`, the marker of a SCSI
slot. -/
structure QemuScsiStorage where
  Delete : Bool
  rest : Nat
  deriving DecidableEq, Repr

/-- Modelled from the spec: `pveAPI.QemuVirtIOStorage`, the marker of a
VirtIO slot. -/
structure QemuVirtIOStorage where
  Delete : Bool
  rest : Nat
  deriving DecidableEq, Repr

/-- Modelled from the spec: `pveAPI.QemuIdeDisks` is declared in the API library.
The markers of the IDE bus, each a `*QemuIdeStorage`. -/
structure QemuIdeDisks where
  Disk_0 : Option QemuIdeStorage
  Disk_1 : Option QemuIdeStorage
  Disk_2 : Option QemuIdeStorage
  Disk_3 : Option QemuIdeStorage
  deriving DecidableEq, Repr

/-- Modelled from the spec: `pveAPI.QemuSataDisks` is declared in the API library.
The markers of the SATA bus, each a `*QemuSataStorage`. -/
structure QemuSataDisks where
  Disk_0 : Option QemuSataStorage
  Disk_1 : Option QemuSataStorage
  Disk_2 : Option QemuSataStorage
  Disk_3 : Option QemuSataStorage
  Disk_4 : Option QemuSataStorage
  Disk_5 : Option QemuSataStorage
  deriving DecidableEq, Repr

/-- Modelled from the spec: `pveAPI.QemuScsiDisks` is declared in the API library.
The markers of the SCSI bus, each a `*QemuScsiStorage`. -/
structure QemuScsiDisks where
  Disk_0 : Option QemuScsiStorage
  Disk_1 : Option QemuScsiStorage
  Disk_2 : Option QemuScsiStorage
  Disk_3 : Option QemuScsiStorage
  Disk_4 : Option QemuScsiStorage
  Disk_5 : Option QemuScsiStorage
  Disk_6 : Option QemuScsiStorage
  Disk_7 : Option QemuScsiStorage
  Disk_8 : Option QemuScsiStorage
  Disk_9 : Option QemuScsiStorage
  Disk_10 : Option QemuScsiStorage
  Disk_11 : Option QemuScsiStorage
  Disk_12 : Option QemuScsiStorage
  Disk_13 : Option QemuScsiStorage
  Disk_14 : Option QemuScsiStorage
  Disk_15 : Option QemuScsiStorage
  Disk_16 : Option QemuScsiStorage
  Disk_17 : Option QemuScsiStorage
  Disk_18 : Option QemuScsiStorage
  Disk_19 : Option QemuScsiStorage
  Disk_20 : Option QemuScsiStorage
  Disk_21 : Option QemuScsiStorage
  Disk_22 : Option QemuScsiStorage
  Disk_23 : Option QemuScsiStorage
  Disk_24 : Option QemuScsiStorage
  Disk_25 : Option QemuScsiStorage
  Disk_26 : Option QemuScsiStorage
  Disk_27 : Option QemuScsiStorage
  Disk_28 : Option QemuScsiStorage
  Disk_29 : Option QemuScsiStorage
  Disk_30 : Option QemuScsiStorage
  deriving DecidableEq, Repr

/-- Modelled from the spec: `pveAPI.QemuVirtIODisks` is declared in the API library.
The markers of the VirtIO bus, each a `*QemuVirtIOStorage`. -/
structure QemuVirtIODisks where
  Disk_0 : Option QemuVirtIOStorage
  Disk_1 : Option QemuVirtIOStorage
  Disk_2 : Option QemuVirtIOStorage
  Disk_3 : Option QemuVirtIOStorage
  Disk_4 : Option QemuVirtIOStorage
  Disk_5 : Option QemuVirtIOStorage
  Disk_6 : Option QemuVirtIOStorage
  Disk_7 : Option QemuVirtIOStorage
  Disk_8 : Option QemuVirtIOStorage
  Disk_9 : Option QemuVirtIOStorage
  Disk_10 : Option QemuVirtIOStorage
  Disk_11 : Option QemuVirtIOStorage
  Disk_12 : Option QemuVirtIOStorage
  Disk_13 : Option QemuVirtIOStorage
  Disk_14 : Option QemuVirtIOStorage
  Disk_15 : Option QemuVirtIOStorage
  deriving DecidableEq, Repr

/-- Modelled from the spec: `pveAPI.QemuStorages` is declared in the API
library.  The update under construction: one pointer per bus (`VirtIo` is
the library field `VirtIO`). -/
structure QemuStorages where
  Ide : Option QemuIdeDisks
  Sata : Option QemuSataDisks
  Scsi : Option QemuScsiDisks
  VirtIo : Option QemuVirtIODisks
  deriving DecidableEq, Repr

/-- Modelled from the spec: `pveAPI.VmRef` is declared in the API library.
The reference to a guest. -/
abbrev VmRef := Nat

/-- Modelled from the spec: `pveAPI.Client` is declared in the API library.
Of the client only `GetVmConfig(ctx, vmr)` is called, which returns a map
and an error. -/
structure Client where
  GetVmConfig : VmRef → Config × Option Error

/-! ## Fields as cells -/

/-- The cell of the field `Ide` inside a `QemuStorages`. -/
def Field.Storages.Ide : Ptr QemuStorages (Option QemuIdeDisks) where
  load := fun d => some d.Ide
  store := fun v d => some { d with Ide := v }

/-- The cell of the field `Sata` inside a `QemuStorages`. -/
def Field.Storages.Sata : Ptr QemuStorages (Option QemuSataDisks) where
  load := fun d => some d.Sata
  store := fun v d => some { d with Sata := v }

/-- The cell of the field `Scsi` inside a `QemuStorages`. -/
def Field.Storages.Scsi : Ptr QemuStorages (Option QemuScsiDisks) where
  load := fun d => some d.Scsi
  store := fun v d => some { d with Scsi := v }

/-- The cell of the field `Disk_0` inside a `QemuIdeDisks`. -/
def Field.Ide.Disk_0 : Ptr QemuIdeDisks (Option QemuIdeStorage) where
  load := fun d => some d.Disk_0
  store := fun v d => some { d with Disk_0 := v }

/-- The cell of the field `Disk_1` inside a `QemuIdeDisks`. -/
def Field.Ide.Disk_1 : Ptr QemuIdeDisks (Option QemuIdeStorage) where
  load := fun d => some d.Disk_1
  store := fun v d => some { d with Disk_1 := v }

/-- The cell of the field `Disk_2` inside a `QemuIdeDisks`. -/
def Field.Ide.Disk_2 : Ptr QemuIdeDisks (Option QemuIdeStorage) where
  load := fun d => some d.Disk_2
  store := fun v d => some { d with Disk_2 := v }

/-- The cell of the field `Disk_3` inside a `QemuIdeDisks`. -/
def Field.Ide.Disk_3 : Ptr QemuIdeDisks (Option QemuIdeStorage) where
  load := fun d => some d.Disk_3
  store := fun v d => some { d with Disk_3 := v }

/-- The cell of the field `Disk_0` inside a `QemuSataDisks`. -/
def Field.Sata.Disk_0 : Ptr QemuSataDisks (Option QemuSataStorage) where
  load := fun d => some d.Disk_0
  store := fun v d => some { d with Disk_0 := v }

/-- The cell of the field `Disk_1` inside a `QemuSataDisks`. -/
def Field.Sata.Disk_1 : Ptr QemuSataDisks (Option QemuSataStorage) where
  load := fun d => some d.Disk_1
  store := fun v d => some { d with Disk_1 := v }

/-- The cell of the field `Disk_2` inside a `QemuSataDisks`. -/
def Field.Sata.Disk_2 : Ptr QemuSataDisks (Option QemuSataStorage) where
  load := fun d => some d.Disk_2
  store := fun v d => some { d with Disk_2 := v }

/-- The cell of the field `Disk_3` inside a `QemuSataDisks`. -/
def Field.Sata.Disk_3 : Ptr QemuSataDisks (Option QemuSataStorage) where
  load := fun d => some d.Disk_3
  store := fun v d => some { d with Disk_3 := v }

/-- The cell of the field `Disk_4` inside a `QemuSataDisks`. -/
def Field.Sata.Disk_4 : Ptr QemuSataDisks (Option QemuSataStorage) where
  load := fun d => some d.Disk_4
  store := fun v d => some { d with Disk_4 := v }

/-- The cell of the field `Disk_5` inside a `QemuSataDisks`. -/
def Field.Sata.Disk_5 : Ptr QemuSataDisks (Option QemuSataStorage) where
  load := fun d => some d.Disk_5
  store := fun v d => some { d with Disk_5 := v }

/-- The cell of the field `Disk_0` inside a `QemuScsiDisks`. -/
def Field.Scsi.Disk_0 : Ptr QemuScsiDisks (Option QemuScsiStorage) where
  load := fun d => some d.Disk_0
  store := fun v d => some { d with Disk_0 := v }

/-- The cell of the field `Disk_1` inside a `QemuScsiDisks`. -/
def Field.Scsi.Disk_1 : Ptr QemuScsiDisks (Option QemuScsiStorage) where
  load := fun d => some d.Disk_1
  store := fun v d => some { d with Disk_1 := v }

/-- The cell of the field `Disk_2` inside a `QemuScsiDisks`. -/
def Field.Scsi.Disk_2 : Ptr QemuScsiDisks (Option QemuScsiStorage) where
  load := fun d => some d.Disk_2
  store := fun v d => some { d with Disk_2 := v }

/-- The cell of the field `Disk_3` inside a `QemuScsiDisks`. -/
def Field.Scsi.Disk_3 : Ptr QemuScsiDisks (Option QemuScsiStorage) where
  load := fun d => some d.Disk_3
  store := fun v d => some { d with Disk_3 := v }

/-! ## The per-slot classifiers -/

/-- Go `checkAndPreserveCloudInit(config, diskSlot, storage)` with
`storage **pveAPI.QemuIdeStorage`. -/
def checkAndPreserveCloudInit {σ : Type} (config : Config) (diskSlot : String)
    (storage : Option (Ptr σ (Option QemuIdeStorage))) (mem : σ) :
    Except Panic (Config × σ) := do
  -- if storage == nil || *storage == nil { return }
  if storage.isNone then
    return (config, mem)
  if (← deref storage mem).isNone then
    return (config, mem)
  -- if diskConfig, exists := config[diskSlot]; exists {
  match config.get diskSlot with
  | some diskConfig =>
    -- if diskStr, ok := diskConfig.(string); ok {
    match diskConfig.asString with
    | some diskStr =>
      if strings.Contains diskStr "cloudinit" then
        -- *storage = nil
        let mem ← assign storage none mem
        return (config, mem)
      else
        return (config, mem)
    | none => return (config, mem)
  | none => return (config, mem)

/-- Go `checkAndPreserveCloudInitSata(config, diskSlot, storage)` with
`storage **pveAPI.QemuSataStorage`. -/
def checkAndPreserveCloudInitSata {σ : Type} (config : Config) (diskSlot : String)
    (storage : Option (Ptr σ (Option QemuSataStorage))) (mem : σ) :
    Except Panic (Config × σ) := do
  -- if storage == nil || *storage == nil { return }
  if storage.isNone then
    return (config, mem)
  if (← deref storage mem).isNone then
    return (config, mem)
  -- if diskConfig, exists := config[diskSlot]; exists {
  match config.get diskSlot with
  | some diskConfig =>
    -- if diskStr, ok := diskConfig.(string); ok {
    match diskConfig.asString with
    | some diskStr =>
      if strings.Contains diskStr "cloudinit" then
        -- *storage = nil
        let mem ← assign storage none mem
        return (config, mem)
      else
        return (config, mem)
    | none => return (config, mem)
  | none => return (config, mem)

/-- Go `checkAndPreserveCloudInitScsi(config, diskSlot, storage)` with
`storage **pveAPI.QemuScsiStorage`. -/
def checkAndPreserveCloudInitScsi {σ : Type} (config : Config) (diskSlot : String)
    (storage : Option (Ptr σ (Option QemuScsiStorage))) (mem : σ) :
    Except Panic (Config × σ) := do
  -- if storage == nil || *storage == nil { return }
  if storage.isNone then
    return (config, mem)
  if (← deref storage mem).isNone then
    return (config, mem)
  -- if diskConfig, exists := config[diskSlot]; exists {
  match config.get diskSlot with
  | some diskConfig =>
    -- if diskStr, ok := diskConfig.(string); ok {
    match diskConfig.asString with
    | some diskStr =>
      if strings.Contains diskStr "cloudinit" then
        -- *storage = nil
        let mem ← assign storage none mem
        return (config, mem)
      else
        return (config, mem)
    | none => return (config, mem)
  | none => return (config, mem)

/-! ## The heuristic of the declared cloud-init parameters -/

/-- Go `preserveIfEmpty(config, diskSlot, ide, slot)` with
`ide *pveAPI.QemuIdeDisks`. -/
def preserveIfEmpty {σ : Type} (config : Config) (diskSlot : String)
    (ide : Option (Ptr σ QemuIdeDisks)) (slot : Int) (mem : σ) :
    Except Panic (Config × σ) := do
  -- if ide == nil { return }
  if ide.isNone then
    return (config, mem)
  -- if diskConfig, exists := config[diskSlot]; exists {
  match config.get diskSlot with
  | some diskConfig =>
    -- if diskStr, ok := diskConfig.(string); ok {
    match diskConfig.asString with
    | some diskStr =>
      if strings.Contains diskStr "cloudinit" then
        -- switch slot {
        if slot = 0 then
          -- if ide.Disk_0 != nil && ide.Disk_0.Delete { ide.Disk_0 = nil }
          match (← deref ide mem).Disk_0 with
          | some disk =>
            if disk.Delete then
              let mem ← assign (← fieldAddr ide Field.Ide.Disk_0 mem) none mem
              return (config, mem)
            else
              return (config, mem)
          | none => return (config, mem)
        else if slot = 1 then
          -- if ide.Disk_1 != nil && ide.Disk_1.Delete { ide.Disk_1 = nil }
          match (← deref ide mem).Disk_1 with
          | some disk =>
            if disk.Delete then
              let mem ← assign (← fieldAddr ide Field.Ide.Disk_1 mem) none mem
              return (config, mem)
            else
              return (config, mem)
          | none => return (config, mem)
        else if slot = 2 then
          -- if ide.Disk_2 != nil && ide.Disk_2.Delete { ide.Disk_2 = nil }
          match (← deref ide mem).Disk_2 with
          | some disk =>
            if disk.Delete then
              let mem ← assign (← fieldAddr ide Field.Ide.Disk_2 mem) none mem
              return (config, mem)
            else
              return (config, mem)
          | none => return (config, mem)
        else if slot = 3 then
          -- if ide.Disk_3 != nil && ide.Disk_3.Delete { ide.Disk_3 = nil }
          match (← deref ide mem).Disk_3 with
          | some disk =>
            if disk.Delete then
              let mem ← assign (← fieldAddr ide Field.Ide.Disk_3 mem) none mem
              return (config, mem)
            else
              return (config, mem)
          | none => return (config, mem)
        else
          return (config, mem)
      else
        return (config, mem)
    | none => return (config, mem)
  | none => return (config, mem)

/-! ## The pass -/

/-- Go `PreserveCloudInitDrive(ctx, client, vmr, storages, hasCloudInitParams)`.
The result is the returned `error` and the memory after the call. -/
def PreserveCloudInitDrive {σ : Type} (client : Client) (vmr : VmRef)
    (storages : Option (Ptr σ QemuStorages)) (hasCloudInitParams : Bool) (mem : σ) :
    Except Panic (Option Error × σ) := do
  -- config, err := client.GetVmConfig(ctx, vmr)
  let (config, err) := client.GetVmConfig vmr
  -- if err != nil { return err }
  if err.isSome then
    return (err, mem)
  -- if storages.Ide != nil {
  let (config, mem) ←
    if (← loadPtr storages Field.Storages.Ide mem).isSome then do
      let (config, mem) ← checkAndPreserveCloudInit config "ide0"
        (← fieldAddr (← loadPtr storages Field.Storages.Ide mem) Field.Ide.Disk_0 mem) mem
      let (config, mem) ← checkAndPreserveCloudInit config "ide1"
        (← fieldAddr (← loadPtr storages Field.Storages.Ide mem) Field.Ide.Disk_1 mem) mem
      let (config, mem) ← checkAndPreserveCloudInit config "ide2"
        (← fieldAddr (← loadPtr storages Field.Storages.Ide mem) Field.Ide.Disk_2 mem) mem
      let (config, mem) ← checkAndPreserveCloudInit config "ide3"
        (← fieldAddr (← loadPtr storages Field.Storages.Ide mem) Field.Ide.Disk_3 mem) mem
      pure (config, mem)
    else
      pure (config, mem)
  -- if storages.Sata != nil {
  let (config, mem) ←
    if (← loadPtr storages Field.Storages.Sata mem).isSome then do
      let (config, mem) ← checkAndPreserveCloudInitSata config "sata0"
        (← fieldAddr (← loadPtr storages Field.Storages.Sata mem) Field.Sata.Disk_0 mem) mem
      let (config, mem) ← checkAndPreserveCloudInitSata config "sata1"
        (← fieldAddr (← loadPtr storages Field.Storages.Sata mem) Field.Sata.Disk_1 mem) mem
      let (config, mem) ← checkAndPreserveCloudInitSata config "sata2"
        (← fieldAddr (← loadPtr storages Field.Storages.Sata mem) Field.Sata.Disk_2 mem) mem
      let (config, mem) ← checkAndPreserveCloudInitSata config "sata3"
        (← fieldAddr (← loadPtr storages Field.Storages.Sata mem) Field.Sata.Disk_3 mem) mem
      let (config, mem) ← checkAndPreserveCloudInitSata config "sata4"
        (← fieldAddr (← loadPtr storages Field.Storages.Sata mem) Field.Sata.Disk_4 mem) mem
      let (config, mem) ← checkAndPreserveCloudInitSata config "sata5"
        (← fieldAddr (← loadPtr storages Field.Storages.Sata mem) Field.Sata.Disk_5 mem) mem
      pure (config, mem)
    else
      pure (config, mem)
  -- if storages.Scsi != nil {
  let (config, mem) ←
    if (← loadPtr storages Field.Storages.Scsi mem).isSome then do
      let (config, mem) ← checkAndPreserveCloudInitScsi config "scsi0"
        (← fieldAddr (← loadPtr storages Field.Storages.Scsi mem) Field.Scsi.Disk_0 mem) mem
      let (config, mem) ← checkAndPreserveCloudInitScsi config "scsi1"
        (← fieldAddr (← loadPtr storages Field.Storages.Scsi mem) Field.Scsi.Disk_1 mem) mem
      let (config, mem) ← checkAndPreserveCloudInitScsi config "scsi2"
        (← fieldAddr (← loadPtr storages Field.Storages.Scsi mem) Field.Scsi.Disk_2 mem) mem
      let (config, mem) ← checkAndPreserveCloudInitScsi config "scsi3"
        (← fieldAddr (← loadPtr storages Field.Storages.Scsi mem) Field.Scsi.Disk_3 mem) mem
      pure (config, mem)
    else
      pure (config, mem)
  -- if hasCloudInitParams {
  let (_, mem) ←
    if hasCloudInitParams then do
      let (config, mem) ← preserveIfEmpty config "ide2"
        (← loadPtr storages Field.Storages.Ide mem) 2 mem
      let (config, mem) ← preserveIfEmpty config "ide3"
        (← loadPtr storages Field.Storages.Ide mem) 3 mem
      pure (config, mem)
    else
      pure (config, mem)
  -- return nil
  return (none, mem)

/-! ## The specification, in its own words -/

/-- The live value of a slot marks a cloud-init drive: it is there, it is a
string, and the string contains `cloudinit`. -/
def isCloudInitValue : Option GoValue → Bool
  | some (GoValue.str s) => strings.Contains s "cloudinit"
  | _ => false

/-- The resolution of one slot: the marker is absent afterwards when it was
absent before or the live value marks a cloud-init drive, and is the marker
of before otherwise. -/
def slotResult {α : Type} (before : Option α) (live : Option GoValue) : Option α :=
  if before.isNone || isCloudInitValue live then none else before

/-- The marker `after` is the marker `before` resolved against the live
value at `key`, and against nothing else. -/
def Classified {α : Type} (config : Config) (key : String) (before after : Option α) : Prop :=
  (after = none ↔ before = none ∨ isCloudInitValue (config.get key) = true) ∧
  (after ≠ none → after = before) ∧
  after = slotResult before (config.get key)

/-- The only change from `before` to `after` is that the marker was cleared. -/
def clearedOrSame {α : Type} (before after : Option α) : Prop :=
  after = none ∨ after = before

/-- Every marker of the bus, in slot order. -/
def QemuIdeDisks.markers (d : QemuIdeDisks) : List (Option QemuIdeStorage) :=
  [d.Disk_0, d.Disk_1, d.Disk_2, d.Disk_3]

/-- Every marker of the bus, in slot order. -/
def QemuSataDisks.markers (d : QemuSataDisks) : List (Option QemuSataStorage) :=
  [d.Disk_0, d.Disk_1, d.Disk_2, d.Disk_3, d.Disk_4, d.Disk_5]

/-- Every marker of the bus, in slot order. -/
def QemuScsiDisks.markers (d : QemuScsiDisks) : List (Option QemuScsiStorage) :=
  [d.Disk_0, d.Disk_1, d.Disk_2, d.Disk_3, d.Disk_4, d.Disk_5, d.Disk_6, d.Disk_7, d.Disk_8,
   d.Disk_9, d.Disk_10, d.Disk_11, d.Disk_12, d.Disk_13, d.Disk_14, d.Disk_15, d.Disk_16,
   d.Disk_17, d.Disk_18, d.Disk_19, d.Disk_20, d.Disk_21, d.Disk_22, d.Disk_23, d.Disk_24,
   d.Disk_25, d.Disk_26, d.Disk_27, d.Disk_28, d.Disk_29, d.Disk_30]

/-- Every marker of the bus, in slot order. -/
def QemuVirtIODisks.markers (d : QemuVirtIODisks) : List (Option QemuVirtIOStorage) :=
  [d.Disk_0, d.Disk_1, d.Disk_2, d.Disk_3, d.Disk_4, d.Disk_5, d.Disk_6, d.Disk_7, d.Disk_8,
   d.Disk_9, d.Disk_10, d.Disk_11, d.Disk_12, d.Disk_13, d.Disk_14, d.Disk_15]

/-- A bus is there afterwards exactly when it was there before, and each of
its markers was cleared or left as it was. -/
def busOnlyCleared {β α : Type} (markers : β → List (Option α)) :
    Option β → Option β → Prop
  | none, none => True
  | some before, some after => List.Forall₂ clearedOrSame (markers before) (markers after)
  | _, _ => False

/-- Every marker of the update, on every bus, was cleared or left as it was. -/
def OnlyCleared (before after : QemuStorages) : Prop :=
  busOnlyCleared QemuIdeDisks.markers before.Ide after.Ide ∧
  busOnlyCleared QemuSataDisks.markers before.Sata after.Sata ∧
  busOnlyCleared QemuScsiDisks.markers before.Scsi after.Scsi ∧
  busOnlyCleared QemuVirtIODisks.markers before.VirtIo after.VirtIo

/-- The specification of the pass on the Ide bus: the bounded slots `ide0` to
`ide3` are resolved, each against its own key. -/
def resolveIde (config : Config) (d : QemuIdeDisks) : QemuIdeDisks :=
  { d with
    Disk_0 := slotResult d.Disk_0 (config.get "ide0"),
    Disk_1 := slotResult d.Disk_1 (config.get "ide1"),
    Disk_2 := slotResult d.Disk_2 (config.get "ide2"),
    Disk_3 := slotResult d.Disk_3 (config.get "ide3") }

/-- The specification of the pass on the Sata bus: the bounded slots `sata0` to
`sata5` are resolved, each against its own key. -/
def resolveSata (config : Config) (d : QemuSataDisks) : QemuSataDisks :=
  { d with
    Disk_0 := slotResult d.Disk_0 (config.get "sata0"),
    Disk_1 := slotResult d.Disk_1 (config.get "sata1"),
    Disk_2 := slotResult d.Disk_2 (config.get "sata2"),
    Disk_3 := slotResult d.Disk_3 (config.get "sata3"),
    Disk_4 := slotResult d.Disk_4 (config.get "sata4"),
    Disk_5 := slotResult d.Disk_5 (config.get "sata5") }

/-- The specification of the pass on the Scsi bus: the bounded slots `scsi0` to
`scsi3` are resolved, each against its own key. -/
def resolveScsi (config : Config) (d : QemuScsiDisks) : QemuScsiDisks :=
  { d with
    Disk_0 := slotResult d.Disk_0 (config.get "scsi0"),
    Disk_1 := slotResult d.Disk_1 (config.get "scsi1"),
    Disk_2 := slotResult d.Disk_2 (config.get "scsi2"),
    Disk_3 := slotResult d.Disk_3 (config.get "scsi3") }

/-- The specification of the pass on the whole update. -/
def resolveStorages (config : Config) (st : QemuStorages) : QemuStorages :=
  { st with
    Ide := st.Ide.map (resolveIde config),
    Sata := st.Sata.map (resolveSata config),
    Scsi := st.Scsi.map (resolveScsi config) }

/-! ## Pointers that behave as cells -/

/-- The pointer behaves as a memory cell: a store to a cell that exists
succeeds, and the next load finds what was stored. -/
def Ptr.IsCell {σ α : Type} (p : Ptr σ α) : Prop :=
  ∀ (mem : σ) (v : α), (p.load mem).isSome = true →
    ∃ mem', p.store v mem = some mem' ∧ p.load mem' = some v

/-- The pointer `storages`, when the memory is the structure it points to. -/
abbrev Addr.storages : Ptr QemuStorages QemuStorages := Ptr.var QemuStorages

/-- The pointer `storages.Ide`, when it is not nil. -/
abbrev Addr.Ide : Ptr QemuStorages QemuIdeDisks :=
  (Addr.storages.field Field.Storages.Ide).field (Ptr.pointee QemuIdeDisks)

/-- The pointer `storages.Sata`, when it is not nil. -/
abbrev Addr.Sata : Ptr QemuStorages QemuSataDisks :=
  (Addr.storages.field Field.Storages.Sata).field (Ptr.pointee QemuSataDisks)

/-- The pointer `storages.Scsi`, when it is not nil. -/
abbrev Addr.Scsi : Ptr QemuStorages QemuScsiDisks :=
  (Addr.storages.field Field.Storages.Scsi).field (Ptr.pointee QemuScsiDisks)

/-! ## The data of the tests -/

/-- The live configuration of `TestPreserveCloudInitDrive_Integration`. -/
def Test.config : Config :=
  [("ide3", GoValue.str "local-lvm:vm-100-cloudinit"),
   ("scsi0", GoValue.str "local-lvm:vm-100-disk-0")]

/-- A client whose fetch succeeds with `Test.config`. -/
def Test.client : Client where
  GetVmConfig := fun _ => (Test.config, none)

/-- A client whose fetch fails. -/
def Test.failingClient : Client where
  GetVmConfig := fun _ => ([], some "vm 100 not found")

/-- The IDE markers of `TestPreserveCloudInitDrive_Integration`. -/
def Test.ide : QemuIdeDisks :=
  { Disk_0 := some { Delete := true, rest := 0 },
    Disk_1 := some { Delete := true, rest := 0 },
    Disk_2 := some { Delete := true, rest := 0 },
    Disk_3 := some { Delete := true, rest := 0 } }

/-- The update of `TestPreserveCloudInitDrive_Integration`: four IDE markers, and
no SATA, SCSI or VirtIO bus. -/
def Test.storages : QemuStorages :=
  { Ide := some Test.ide, Sata := none, Scsi := none, VirtIo := none }

/-- The Go zero value `pveAPI.QemuScsiDisks{}`: every marker absent. -/
def QemuScsiDisks.zero : QemuScsiDisks :=
  { Disk_0 := none, Disk_1 := none, Disk_2 := none, Disk_3 := none, Disk_4 := none,
    Disk_5 := none, Disk_6 := none, Disk_7 := none, Disk_8 := none, Disk_9 := none,
    Disk_10 := none, Disk_11 := none, Disk_12 := none, Disk_13 := none, Disk_14 := none,
    Disk_15 := none, Disk_16 := none, Disk_17 := none, Disk_18 := none, Disk_19 := none,
    Disk_20 := none, Disk_21 := none, Disk_22 := none, Disk_23 := none, Disk_24 := none,
    Disk_25 := none, Disk_26 := none, Disk_27 := none, Disk_28 := none, Disk_29 := none,
    Disk_30 := none }

/-- The Go zero value `pveAPI.QemuVirtIODisks{}`: every marker absent. -/
def QemuVirtIODisks.zero : QemuVirtIODisks :=
  { Disk_0 := none, Disk_1 := none, Disk_2 := none, Disk_3 := none, Disk_4 := none,
    Disk_5 := none, Disk_6 := none, Disk_7 := none, Disk_8 := none, Disk_9 := none,
    Disk_10 := none, Disk_11 := none, Disk_12 := none, Disk_13 := none, Disk_14 := none,
    Disk_15 := none }

/-- A live configuration with a plain disk at `ide2` and cloud-init volumes at keys
beyond the bounded slots. -/
def Test.wideConfig : Config :=
  [("ide2", GoValue.str "local-lvm:vm-100-disk-1"),
   ("scsi4", GoValue.str "local-lvm:vm-100-cloudinit"),
   ("virtio0", GoValue.str "local-lvm:vm-100-cloudinit")]

/-- A client whose fetch succeeds with `Test.wideConfig`. -/
def Test.wideClient : Client where
  GetVmConfig := fun _ => (Test.wideConfig, none)

/-- SCSI markers that ask for the deletion of `scsi0` and of `scsi4`. -/
def Test.scsi : QemuScsiDisks :=
  { QemuScsiDisks.zero with
    Disk_0 := some { Delete := true, rest := 0 },
    Disk_4 := some { Delete := true, rest := 0 } }

/-- VirtIO markers that ask for the deletion of `virtio0`. -/
def Test.virtio : QemuVirtIODisks :=
  { QemuVirtIODisks.zero with Disk_0 := some { Delete := true, rest := 0 } }

/-- An update with the IDE markers of the integration test, no SATA bus, and
markers on `scsi0`, `scsi4` and `virtio0`. -/
def Test.wideStorages : QemuStorages :=
  { Ide := some Test.ide, Sata := none, Scsi := some Test.scsi, VirtIo := some Test.virtio }

/-! ## The statements of the pass, one by one -/

/-- One statement of the body of `PreserveCloudInitDrive`: the call of a classifier
on one slot, or one of the two calls of the heuristic. -/
inductive Step where
  | ide0
  | ide1
  | ide2
  | ide3
  | sata0
  | sata1
  | sata2
  | sata3
  | sata4
  | sata5
  | scsi0
  | scsi1
  | scsi2
  | scsi3
  | heuristic2
  | heuristic3
  deriving DecidableEq, Repr

/-- The statement `s` of `PreserveCloudInitDrive`, run on its own: a call of a
classifier under the guard of its block (`if storages.Ide != nil` and the like), or
a call of `preserveIfEmpty` as in the block of `hasCloudInitParams`. -/
def Step.run {σ : Type} (s : Step) (config : Config) (storages : Option (Ptr σ QemuStorages))
    (mem : σ) : Except Panic (Config × σ) :=
  match s with
  | Step.ide0 => do
    if (← loadPtr storages Field.Storages.Ide mem).isSome then
      checkAndPreserveCloudInit config "ide0"
        (← fieldAddr (← loadPtr storages Field.Storages.Ide mem) Field.Ide.Disk_0 mem) mem
    else
      pure (config, mem)
  | Step.ide1 => do
    if (← loadPtr storages Field.Storages.Ide mem).isSome then
      checkAndPreserveCloudInit config "ide1"
        (← fieldAddr (← loadPtr storages Field.Storages.Ide mem) Field.Ide.Disk_1 mem) mem
    else
      pure (config, mem)
  | Step.ide2 => do
    if (← loadPtr storages Field.Storages.Ide mem).isSome then
      checkAndPreserveCloudInit config "ide2"
        (← fieldAddr (← loadPtr storages Field.Storages.Ide mem) Field.Ide.Disk_2 mem) mem
    else
      pure (config, mem)
  | Step.ide3 => do
    if (← loadPtr storages Field.Storages.Ide mem).isSome then
      checkAndPreserveCloudInit config "ide3"
        (← fieldAddr (← loadPtr storages Field.Storages.Ide mem) Field.Ide.Disk_3 mem) mem
    else
      pure (config, mem)
  | Step.sata0 => do
    if (← loadPtr storages Field.Storages.Sata mem).isSome then
      checkAndPreserveCloudInitSata config "sata0"
        (← fieldAddr (← loadPtr storages Field.Storages.Sata mem) Field.Sata.Disk_0 mem) mem
    else
      pure (config, mem)
  | Step.sata1 => do
    if (← loadPtr storages Field.Storages.Sata mem).isSome then
      checkAndPreserveCloudInitSata config "sata1"
        (← fieldAddr (← loadPtr storages Field.Storages.Sata mem) Field.Sata.Disk_1 mem) mem
    else
      pure (config, mem)
  | Step.sata2 => do
    if (← loadPtr storages Field.Storages.Sata mem).isSome then
      checkAndPreserveCloudInitSata config "sata2"
        (← fieldAddr (← loadPtr storages Field.Storages.Sata mem) Field.Sata.Disk_2 mem) mem
    else
      pure (config, mem)
  | Step.sata3 => do
    if (← loadPtr storages Field.Storages.Sata mem).isSome then
      checkAndPreserveCloudInitSata config "sata3"
        (← fieldAddr (← loadPtr storages Field.Storages.Sata mem) Field.Sata.Disk_3 mem) mem
    else
      pure (config, mem)
  | Step.sata4 => do
    if (← loadPtr storages Field.Storages.Sata mem).isSome then
      checkAndPreserveCloudInitSata config "sata4"
        (← fieldAddr (← loadPtr storages Field.Storages.Sata mem) Field.Sata.Disk_4 mem) mem
    else
      pure (config, mem)
  | Step.sata5 => do
    if (← loadPtr storages Field.Storages.Sata mem).isSome then
      checkAndPreserveCloudInitSata config "sata5"
        (← fieldAddr (← loadPtr storages Field.Storages.Sata mem) Field.Sata.Disk_5 mem) mem
    else
      pure (config, mem)
  | Step.scsi0 => do
    if (← loadPtr storages Field.Storages.Scsi mem).isSome then
      checkAndPreserveCloudInitScsi config "scsi0"
        (← fieldAddr (← loadPtr storages Field.Storages.Scsi mem) Field.Scsi.Disk_0 mem) mem
    else
      pure (config, mem)
  | Step.scsi1 => do
    if (← loadPtr storages Field.Storages.Scsi mem).isSome then
      checkAndPreserveCloudInitScsi config "scsi1"
        (← fieldAddr (← loadPtr storages Field.Storages.Scsi mem) Field.Scsi.Disk_1 mem) mem
    else
      pure (config, mem)
  | Step.scsi2 => do
    if (← loadPtr storages Field.Storages.Scsi mem).isSome then
      checkAndPreserveCloudInitScsi config "scsi2"
        (← fieldAddr (← loadPtr storages Field.Storages.Scsi mem) Field.Scsi.Disk_2 mem) mem
    else
      pure (config, mem)
  | Step.scsi3 => do
    if (← loadPtr storages Field.Storages.Scsi mem).isSome then
      checkAndPreserveCloudInitScsi config "scsi3"
        (← fieldAddr (← loadPtr storages Field.Storages.Scsi mem) Field.Scsi.Disk_3 mem) mem
    else
      pure (config, mem)
  | Step.heuristic2 => do
    preserveIfEmpty config "ide2" (← loadPtr storages Field.Storages.Ide mem) 2 mem
  | Step.heuristic3 => do
    preserveIfEmpty config "ide3" (← loadPtr storages Field.Storages.Ide mem) 3 mem

/-- The statements of `order`, run one after the other. -/
def runSteps {σ : Type} (order : List Step) (config : Config)
    (storages : Option (Ptr σ QemuStorages)) (mem : σ) : Except Panic (Config × σ) :=
  match order with
  | [] => pure (config, mem)
  | s :: rest => do
    let (config, mem) ← s.run config storages mem
    runSteps rest config storages mem

/-- The classifier calls of `PreserveCloudInitDrive`, in the order of the source. -/
def Step.classifiers : List Step :=
  [Step.ide0, Step.ide1, Step.ide2, Step.ide3,
   Step.sata0, Step.sata1, Step.sata2, Step.sata3, Step.sata4, Step.sata5,
   Step.scsi0, Step.scsi1, Step.scsi2, Step.scsi3]

/-- The statements of `PreserveCloudInitDrive` with `hasCloudInitParams` set, in the
order of the source. -/
def Step.all : List Step :=
  Step.classifiers ++ [Step.heuristic2, Step.heuristic3]

/-- What `preserveIfEmpty` makes of the marker of its slot: a marker that asks for
the deletion is cleared when the live value marks a cloud-init drive. -/
def heuristicResult (before : Option QemuIdeStorage) (live : Option GoValue) :
    Option QemuIdeStorage :=
  match before with
  | some m => if isCloudInitValue live && m.Delete then none else some m
  | none => none

/-- The update after the statement `s`, as a function of the update before it. -/
def Step.apply (s : Step) (config : Config) (st : QemuStorages) : QemuStorages :=
  match s with
  | Step.ide0 =>
    { st with Ide := st.Ide.map fun d =>
        { d with Disk_0 := slotResult d.Disk_0 (config.get "ide0") } }
  | Step.ide1 =>
    { st with Ide := st.Ide.map fun d =>
        { d with Disk_1 := slotResult d.Disk_1 (config.get "ide1") } }
  | Step.ide2 =>
    { st with Ide := st.Ide.map fun d =>
        { d with Disk_2 := slotResult d.Disk_2 (config.get "ide2") } }
  | Step.ide3 =>
    { st with Ide := st.Ide.map fun d =>
        { d with Disk_3 := slotResult d.Disk_3 (config.get "ide3") } }
  | Step.sata0 =>
    { st with Sata := st.Sata.map fun d =>
        { d with Disk_0 := slotResult d.Disk_0 (config.get "sata0") } }
  | Step.sata1 =>
    { st with Sata := st.Sata.map fun d =>
        { d with Disk_1 := slotResult d.Disk_1 (config.get "sata1") } }
  | Step.sata2 =>
    { st with Sata := st.Sata.map fun d =>
        { d with Disk_2 := slotResult d.Disk_2 (config.get "sata2") } }
  | Step.sata3 =>
    { st with Sata := st.Sata.map fun d =>
        { d with Disk_3 := slotResult d.Disk_3 (config.get "sata3") } }
  | Step.sata4 =>
    { st with Sata := st.Sata.map fun d =>
        { d with Disk_4 := slotResult d.Disk_4 (config.get "sata4") } }
  | Step.sata5 =>
    { st with Sata := st.Sata.map fun d =>
        { d with Disk_5 := slotResult d.Disk_5 (config.get "sata5") } }
  | Step.scsi0 =>
    { st with Scsi := st.Scsi.map fun d =>
        { d with Disk_0 := slotResult d.Disk_0 (config.get "scsi0") } }
  | Step.scsi1 =>
    { st with Scsi := st.Scsi.map fun d =>
        { d with Disk_1 := slotResult d.Disk_1 (config.get "scsi1") } }
  | Step.scsi2 =>
    { st with Scsi := st.Scsi.map fun d =>
        { d with Disk_2 := slotResult d.Disk_2 (config.get "scsi2") } }
  | Step.scsi3 =>
    { st with Scsi := st.Scsi.map fun d =>
        { d with Disk_3 := slotResult d.Disk_3 (config.get "scsi3") } }
  | Step.heuristic2 =>
    { st with Ide := st.Ide.map fun d =>
        { d with Disk_2 := heuristicResult d.Disk_2 (config.get "ide2") } }
  | Step.heuristic3 =>
    { st with Ide := st.Ide.map fun d =>
        { d with Disk_3 := heuristicResult d.Disk_3 (config.get "ide3") } }

/-! # Verification -/

/-! ## Containment of strings -/

theorem startsWith_iff (pat s : List Char) :
    startsWith pat s = true ↔ ∃ post, s = pat ++ post := by
  induction pat generalizing s with
  | nil => simp [startsWith]
  | cons p ps ih =>
    cases s with
    | nil => simp [startsWith]
    | cons c cs =>
      simp only [startsWith, Bool.and_eq_true, beq_iff_eq, ih, List.cons_append,
        List.cons.injEq]
      constructor
      · rintro ⟨rfl, post, rfl⟩
        exact ⟨post, rfl, rfl⟩
      · rintro ⟨post, rfl, rfl⟩
        exact ⟨rfl, post, rfl⟩

theorem occursIn_iff (pat s : List Char) :
    occursIn pat s = true ↔ ∃ pre post, s = pre ++ pat ++ post := by
  induction s with
  | nil =>
    simp only [occursIn, startsWith_iff]
    constructor
    · rintro ⟨post, h⟩
      exact ⟨[], post, by simpa using h⟩
    · rintro ⟨pre, post, h⟩
      have h' := h.symm
      simp only [List.append_eq_nil] at h'
      exact ⟨[], by simp [h'.1.2]⟩
  | cons c cs ih =>
    simp only [occursIn, Bool.or_eq_true, startsWith_iff, ih]
    constructor
    · rintro (⟨post, h⟩ | ⟨pre, post, h⟩)
      · exact ⟨[], post, by simpa using h⟩
      · exact ⟨c :: pre, post, by simp [h]⟩
    · rintro ⟨pre, post, h⟩
      cases pre with
      | nil => exact Or.inl ⟨post, by simpa using h⟩
      | cons a pre =>
        simp only [List.cons_append, List.cons.injEq] at h
        exact Or.inr ⟨pre, post, h.2⟩

theorem strings.Contains_iff (s substr : String) :
    strings.Contains s substr = true ↔ ∃ pre post : String, s = pre ++ substr ++ post := by
  simp only [strings.Contains, occursIn_iff]
  constructor
  · rintro ⟨pre, post, h⟩
    exact ⟨⟨pre⟩, ⟨post⟩, String.ext (by simp [h])⟩
  · rintro ⟨pre, post, rfl⟩
    exact ⟨pre.data, post.data, by simp⟩

theorem isCloudInitValue_iff (live : Option GoValue) :
    isCloudInitValue live = true ↔
      ∃ s pre post : String, live = some (GoValue.str s) ∧ s = pre ++ "cloudinit" ++ post := by
  cases live with
  | none => simp [isCloudInitValue]
  | some v =>
    cases v with
    | str s =>
      simp only [isCloudInitValue, strings.Contains_iff, Option.some.injEq, GoValue.str.injEq]
      constructor
      · rintro ⟨pre, post, h⟩
        exact ⟨s, pre, post, rfl, h⟩
      · rintro ⟨s', pre, post, rfl, h⟩
        exact ⟨pre, post, h⟩
    | _ => simp [isCloudInitValue]

/-! ## Pointers -/

theorem Ptr.var_isCell (α : Type) : (Ptr.var α).IsCell := by
  intro mem v _
  exact ⟨v, rfl, rfl⟩

theorem Ptr.pointee_isCell (β : Type) : (Ptr.pointee β).IsCell := by
  intro mem v h
  cases mem with
  | none => simp [Ptr.pointee] at h
  | some b => exact ⟨some v, rfl, rfl⟩

theorem Ptr.field_isCell {σ β α : Type} (p : Ptr σ β) (f : Ptr β α) (hp : p.IsCell)
    (hf : f.IsCell) : (p.field f).IsCell := by
  intro mem v h
  cases hb : p.load mem with
  | none => simp [Ptr.field, hb] at h
  | some b =>
    have hfb : (f.load b).isSome = true := by simpa [Ptr.field, hb] using h
    obtain ⟨b', hb', hload⟩ := hf b v hfb
    obtain ⟨mem', hmem', hload'⟩ := hp mem b' (by simp [hb])
    exact ⟨mem', by simp [Ptr.field, hb, hb', hmem'], by simp [Ptr.field, hload', hload]⟩

/-! ## The classifiers, case by case -/

theorem checkAndPreserveCloudInit_unfold {σ : Type} (config : Config) (diskSlot : String)
    (p : Ptr σ (Option QemuIdeStorage)) (mem : σ) :
    checkAndPreserveCloudInit config diskSlot (some p) mem =
      match p.load mem with
      | none => Except.error Panic.nilDereference
      | some b =>
        if b.isSome && isCloudInitValue (config.get diskSlot) then
          match p.store none mem with
          | none => Except.error Panic.nilDereference
          | some mem' => Except.ok (config, mem')
        else Except.ok (config, mem) := by
  cases h : p.load mem with
  | none => simp [checkAndPreserveCloudInit, deref, h, bind, Except.bind, pure, Except.pure]
  | some b =>
    cases b with
    | none => simp [checkAndPreserveCloudInit, deref, h, bind, Except.bind, pure, Except.pure]
    | some m =>
      cases hs : p.store none mem <;>
      cases hv : config.get diskSlot with
      | none =>
        simp [checkAndPreserveCloudInit, deref, h, hv, isCloudInitValue, bind, Except.bind,
          pure, Except.pure]
      | some v =>
        cases v with
        | str s =>
          cases hc : strings.Contains s "cloudinit" <;>
          simp [checkAndPreserveCloudInit, deref, assign, h, hv, hs, hc, isCloudInitValue,
            GoValue.asString, bind, Except.bind, pure, Except.pure]
        | _ =>
          simp [checkAndPreserveCloudInit, deref, assign, h, hv, hs, isCloudInitValue,
            GoValue.asString, bind, Except.bind, pure, Except.pure]

theorem checkAndPreserveCloudInitSata_unfold {σ : Type} (config : Config) (diskSlot : String)
    (p : Ptr σ (Option QemuSataStorage)) (mem : σ) :
    checkAndPreserveCloudInitSata config diskSlot (some p) mem =
      match p.load mem with
      | none => Except.error Panic.nilDereference
      | some b =>
        if b.isSome && isCloudInitValue (config.get diskSlot) then
          match p.store none mem with
          | none => Except.error Panic.nilDereference
          | some mem' => Except.ok (config, mem')
        else Except.ok (config, mem) := by
  cases h : p.load mem with
  | none => simp [checkAndPreserveCloudInitSata, deref, h, bind, Except.bind, pure, Except.pure]
  | some b =>
    cases b with
    | none => simp [checkAndPreserveCloudInitSata, deref, h, bind, Except.bind, pure, Except.pure]
    | some m =>
      cases hs : p.store none mem <;>
      cases hv : config.get diskSlot with
      | none =>
        simp [checkAndPreserveCloudInitSata, deref, h, hv, isCloudInitValue, bind, Except.bind,
          pure, Except.pure]
      | some v =>
        cases v with
        | str s =>
          cases hc : strings.Contains s "cloudinit" <;>
          simp [checkAndPreserveCloudInitSata, deref, assign, h, hv, hs, hc, isCloudInitValue,
            GoValue.asString, bind, Except.bind, pure, Except.pure]
        | _ =>
          simp [checkAndPreserveCloudInitSata, deref, assign, h, hv, hs, isCloudInitValue,
            GoValue.asString, bind, Except.bind, pure, Except.pure]

theorem checkAndPreserveCloudInitScsi_unfold {σ : Type} (config : Config) (diskSlot : String)
    (p : Ptr σ (Option QemuScsiStorage)) (mem : σ) :
    checkAndPreserveCloudInitScsi config diskSlot (some p) mem =
      match p.load mem with
      | none => Except.error Panic.nilDereference
      | some b =>
        if b.isSome && isCloudInitValue (config.get diskSlot) then
          match p.store none mem with
          | none => Except.error Panic.nilDereference
          | some mem' => Except.ok (config, mem')
        else Except.ok (config, mem) := by
  cases h : p.load mem with
  | none => simp [checkAndPreserveCloudInitScsi, deref, h, bind, Except.bind, pure, Except.pure]
  | some b =>
    cases b with
    | none => simp [checkAndPreserveCloudInitScsi, deref, h, bind, Except.bind, pure, Except.pure]
    | some m =>
      cases hs : p.store none mem <;>
      cases hv : config.get diskSlot with
      | none =>
        simp [checkAndPreserveCloudInitScsi, deref, h, hv, isCloudInitValue, bind, Except.bind,
          pure, Except.pure]
      | some v =>
        cases v with
        | str s =>
          cases hc : strings.Contains s "cloudinit" <;>
          simp [checkAndPreserveCloudInitScsi, deref, assign, h, hv, hs, hc, isCloudInitValue,
            GoValue.asString, bind, Except.bind, pure, Except.pure]
        | _ =>
          simp [checkAndPreserveCloudInitScsi, deref, assign, h, hv, hs, isCloudInitValue,
            GoValue.asString, bind, Except.bind, pure, Except.pure]

theorem checkAndPreserveCloudInit_nil {σ : Type} (config : Config) (diskSlot : String)
    (mem : σ) :
    checkAndPreserveCloudInit config diskSlot none mem = Except.ok (config, mem) := by
  simp [checkAndPreserveCloudInit, pure, Except.pure]

theorem checkAndPreserveCloudInitSata_nil {σ : Type} (config : Config) (diskSlot : String)
    (mem : σ) :
    checkAndPreserveCloudInitSata config diskSlot none mem = Except.ok (config, mem) := by
  simp [checkAndPreserveCloudInitSata, pure, Except.pure]

theorem checkAndPreserveCloudInitScsi_nil {σ : Type} (config : Config) (diskSlot : String)
    (mem : σ) :
    checkAndPreserveCloudInitScsi config diskSlot none mem = Except.ok (config, mem) := by
  simp [checkAndPreserveCloudInitScsi, pure, Except.pure]

/-! ## Evaluating addresses -/

theorem loadPtr_var {β γ : Type} (f : Ptr β (Option γ)) (mem : β) :
    loadPtr (some (Ptr.var β)) f mem =
      match f.load mem with
      | none => Except.error Panic.nilDereference
      | some none => Except.ok none
      | some (some _) => Except.ok (some (((Ptr.var β).field f).field (Ptr.pointee γ))) := by
  cases h : f.load mem with
  | none => simp [loadPtr, deref, Ptr.var, Ptr.field, h, bind, Except.bind, pure, Except.pure]
  | some o =>
    cases o <;>
    simp [loadPtr, deref, Ptr.var, Ptr.field, h, bind, Except.bind, pure, Except.pure]

theorem fieldAddr_some {σ β α : Type} (p : Ptr σ β) (f : Ptr β α) (mem : σ) :
    fieldAddr (some p) f mem =
      match p.load mem with
      | none => Except.error Panic.nilDereference
      | some _ => Except.ok (some (p.field f)) := by
  cases h : p.load mem <;>
  simp [fieldAddr, deref, h, bind, Except.bind, pure, Except.pure]

/-! ## The classifiers on the slots of the update -/

theorem checkAndPreserveCloudInit_ide0 (config : Config) (key : String)
    (ide : QemuIdeDisks) (sata : Option QemuSataDisks)
    (scsi : Option QemuScsiDisks) (virtio : Option QemuVirtIODisks) :
    checkAndPreserveCloudInit config key (some (Addr.Ide.field Field.Ide.Disk_0))
        ⟨some ide, sata, scsi, virtio⟩ =
      Except.ok (config,
        ⟨some { ide with Disk_0 := slotResult ide.Disk_0 (config.get key) }, sata, scsi,
          virtio⟩) := by
  rw [checkAndPreserveCloudInit_unfold]
  cases ide
  rename_i d _ _ _
  cases d <;> cases hc : isCloudInitValue (config.get key) <;>
  simp [Ptr.field, Ptr.var, Ptr.pointee, Field.Storages.Ide, Field.Ide.Disk_0, slotResult, hc]

theorem checkAndPreserveCloudInit_ide1 (config : Config) (key : String)
    (ide : QemuIdeDisks) (sata : Option QemuSataDisks)
    (scsi : Option QemuScsiDisks) (virtio : Option QemuVirtIODisks) :
    checkAndPreserveCloudInit config key (some (Addr.Ide.field Field.Ide.Disk_1))
        ⟨some ide, sata, scsi, virtio⟩ =
      Except.ok (config,
        ⟨some { ide with Disk_1 := slotResult ide.Disk_1 (config.get key) }, sata, scsi,
          virtio⟩) := by
  rw [checkAndPreserveCloudInit_unfold]
  cases ide
  rename_i _ d _ _
  cases d <;> cases hc : isCloudInitValue (config.get key) <;>
  simp [Ptr.field, Ptr.var, Ptr.pointee, Field.Storages.Ide, Field.Ide.Disk_1, slotResult, hc]

theorem checkAndPreserveCloudInit_ide2 (config : Config) (key : String)
    (ide : QemuIdeDisks) (sata : Option QemuSataDisks)
    (scsi : Option QemuScsiDisks) (virtio : Option QemuVirtIODisks) :
    checkAndPreserveCloudInit config key (some (Addr.Ide.field Field.Ide.Disk_2))
        ⟨some ide, sata, scsi, virtio⟩ =
      Except.ok (config,
        ⟨some { ide with Disk_2 := slotResult ide.Disk_2 (config.get key) }, sata, scsi,
          virtio⟩) := by
  rw [checkAndPreserveCloudInit_unfold]
  cases ide
  rename_i _ _ d _
  cases d <;> cases hc : isCloudInitValue (config.get key) <;>
  simp [Ptr.field, Ptr.var, Ptr.pointee, Field.Storages.Ide, Field.Ide.Disk_2, slotResult, hc]

theorem checkAndPreserveCloudInit_ide3 (config : Config) (key : String)
    (ide : QemuIdeDisks) (sata : Option QemuSataDisks)
    (scsi : Option QemuScsiDisks) (virtio : Option QemuVirtIODisks) :
    checkAndPreserveCloudInit config key (some (Addr.Ide.field Field.Ide.Disk_3))
        ⟨some ide, sata, scsi, virtio⟩ =
      Except.ok (config,
        ⟨some { ide with Disk_3 := slotResult ide.Disk_3 (config.get key) }, sata, scsi,
          virtio⟩) := by
  rw [checkAndPreserveCloudInit_unfold]
  cases ide
  rename_i _ _ _ d
  cases d <;> cases hc : isCloudInitValue (config.get key) <;>
  simp [Ptr.field, Ptr.var, Ptr.pointee, Field.Storages.Ide, Field.Ide.Disk_3, slotResult, hc]

theorem checkAndPreserveCloudInitSata_sata0 (config : Config) (key : String)
    (ide : Option QemuIdeDisks) (sata : QemuSataDisks)
    (scsi : Option QemuScsiDisks) (virtio : Option QemuVirtIODisks) :
    checkAndPreserveCloudInitSata config key (some (Addr.Sata.field Field.Sata.Disk_0))
        ⟨ide, some sata, scsi, virtio⟩ =
      Except.ok (config,
        ⟨ide, some { sata with Disk_0 := slotResult sata.Disk_0 (config.get key) }, scsi,
          virtio⟩) := by
  rw [checkAndPreserveCloudInitSata_unfold]
  cases sata
  rename_i d _ _ _ _ _
  cases d <;> cases hc : isCloudInitValue (config.get key) <;>
  simp [Ptr.field, Ptr.var, Ptr.pointee, Field.Storages.Sata, Field.Sata.Disk_0, slotResult, hc]

theorem checkAndPreserveCloudInitSata_sata1 (config : Config) (key : String)
    (ide : Option QemuIdeDisks) (sata : QemuSataDisks)
    (scsi : Option QemuScsiDisks) (virtio : Option QemuVirtIODisks) :
    checkAndPreserveCloudInitSata config key (some (Addr.Sata.field Field.Sata.Disk_1))
        ⟨ide, some sata, scsi, virtio⟩ =
      Except.ok (config,
        ⟨ide, some { sata with Disk_1 := slotResult sata.Disk_1 (config.get key) }, scsi,
          virtio⟩) := by
  rw [checkAndPreserveCloudInitSata_unfold]
  cases sata
  rename_i _ d _ _ _ _
  cases d <;> cases hc : isCloudInitValue (config.get key) <;>
  simp [Ptr.field, Ptr.var, Ptr.pointee, Field.Storages.Sata, Field.Sata.Disk_1, slotResult, hc]

theorem checkAndPreserveCloudInitSata_sata2 (config : Config) (key : String)
    (ide : Option QemuIdeDisks) (sata : QemuSataDisks)
    (scsi : Option QemuScsiDisks) (virtio : Option QemuVirtIODisks) :
    checkAndPreserveCloudInitSata config key (some (Addr.Sata.field Field.Sata.Disk_2))
        ⟨ide, some sata, scsi, virtio⟩ =
      Except.ok (config,
        ⟨ide, some { sata with Disk_2 := slotResult sata.Disk_2 (config.get key) }, scsi,
          virtio⟩) := by
  rw [checkAndPreserveCloudInitSata_unfold]
  cases sata
  rename_i _ _ d _ _ _
  cases d <;> cases hc : isCloudInitValue (config.get key) <;>
  simp [Ptr.field, Ptr.var, Ptr.pointee, Field.Storages.Sata, Field.Sata.Disk_2, slotResult, hc]

theorem checkAndPreserveCloudInitSata_sata3 (config : Config) (key : String)
    (ide : Option QemuIdeDisks) (sata : QemuSataDisks)
    (scsi : Option QemuScsiDisks) (virtio : Option QemuVirtIODisks) :
    checkAndPreserveCloudInitSata config key (some (Addr.Sata.field Field.Sata.Disk_3))
        ⟨ide, some sata, scsi, virtio⟩ =
      Except.ok (config,
        ⟨ide, some { sata with Disk_3 := slotResult sata.Disk_3 (config.get key) }, scsi,
          virtio⟩) := by
  rw [checkAndPreserveCloudInitSata_unfold]
  cases sata
  rename_i _ _ _ d _ _
  cases d <;> cases hc : isCloudInitValue (config.get key) <;>
  simp [Ptr.field, Ptr.var, Ptr.pointee, Field.Storages.Sata, Field.Sata.Disk_3, slotResult, hc]

theorem checkAndPreserveCloudInitSata_sata4 (config : Config) (key : String)
    (ide : Option QemuIdeDisks) (sata : QemuSataDisks)
    (scsi : Option QemuScsiDisks) (virtio : Option QemuVirtIODisks) :
    checkAndPreserveCloudInitSata config key (some (Addr.Sata.field Field.Sata.Disk_4))
        ⟨ide, some sata, scsi, virtio⟩ =
      Except.ok (config,
        ⟨ide, some { sata with Disk_4 := slotResult sata.Disk_4 (config.get key) }, scsi,
          virtio⟩) := by
  rw [checkAndPreserveCloudInitSata_unfold]
  cases sata
  rename_i _ _ _ _ d _
  cases d <;> cases hc : isCloudInitValue (config.get key) <;>
  simp [Ptr.field, Ptr.var, Ptr.pointee, Field.Storages.Sata, Field.Sata.Disk_4, slotResult, hc]

theorem checkAndPreserveCloudInitSata_sata5 (config : Config) (key : String)
    (ide : Option QemuIdeDisks) (sata : QemuSataDisks)
    (scsi : Option QemuScsiDisks) (virtio : Option QemuVirtIODisks) :
    checkAndPreserveCloudInitSata config key (some (Addr.Sata.field Field.Sata.Disk_5))
        ⟨ide, some sata, scsi, virtio⟩ =
      Except.ok (config,
        ⟨ide, some { sata with Disk_5 := slotResult sata.Disk_5 (config.get key) }, scsi,
          virtio⟩) := by
  rw [checkAndPreserveCloudInitSata_unfold]
  cases sata
  rename_i _ _ _ _ _ d
  cases d <;> cases hc : isCloudInitValue (config.get key) <;>
  simp [Ptr.field, Ptr.var, Ptr.pointee, Field.Storages.Sata, Field.Sata.Disk_5, slotResult, hc]

theorem checkAndPreserveCloudInitScsi_scsi0 (config : Config) (key : String)
    (ide : Option QemuIdeDisks) (sata : Option QemuSataDisks)
    (scsi : QemuScsiDisks) (virtio : Option QemuVirtIODisks) :
    checkAndPreserveCloudInitScsi config key (some (Addr.Scsi.field Field.Scsi.Disk_0))
        ⟨ide, sata, some scsi, virtio⟩ =
      Except.ok (config,
        ⟨ide, sata, some { scsi with Disk_0 := slotResult scsi.Disk_0 (config.get key) },
          virtio⟩) := by
  rw [checkAndPreserveCloudInitScsi_unfold]
  cases scsi
  rename_i d _ _ _ _ _ _ _ _ _ _ _ _ _ _ _ _ _ _ _ _ _ _ _ _ _ _ _ _ _ _
  cases d <;> cases hc : isCloudInitValue (config.get key) <;>
  simp [Ptr.field, Ptr.var, Ptr.pointee, Field.Storages.Scsi, Field.Scsi.Disk_0, slotResult, hc]

theorem checkAndPreserveCloudInitScsi_scsi1 (config : Config) (key : String)
    (ide : Option QemuIdeDisks) (sata : Option QemuSataDisks)
    (scsi : QemuScsiDisks) (virtio : Option QemuVirtIODisks) :
    checkAndPreserveCloudInitScsi config key (some (Addr.Scsi.field Field.Scsi.Disk_1))
        ⟨ide, sata, some scsi, virtio⟩ =
      Except.ok (config,
        ⟨ide, sata, some { scsi with Disk_1 := slotResult scsi.Disk_1 (config.get key) },
          virtio⟩) := by
  rw [checkAndPreserveCloudInitScsi_unfold]
  cases scsi
  rename_i _ d _ _ _ _ _ _ _ _ _ _ _ _ _ _ _ _ _ _ _ _ _ _ _ _ _ _ _ _ _
  cases d <;> cases hc : isCloudInitValue (config.get key) <;>
  simp [Ptr.field, Ptr.var, Ptr.pointee, Field.Storages.Scsi, Field.Scsi.Disk_1, slotResult, hc]

theorem checkAndPreserveCloudInitScsi_scsi2 (config : Config) (key : String)
    (ide : Option QemuIdeDisks) (sata : Option QemuSataDisks)
    (scsi : QemuScsiDisks) (virtio : Option QemuVirtIODisks) :
    checkAndPreserveCloudInitScsi config key (some (Addr.Scsi.field Field.Scsi.Disk_2))
        ⟨ide, sata, some scsi, virtio⟩ =
      Except.ok (config,
        ⟨ide, sata, some { scsi with Disk_2 := slotResult scsi.Disk_2 (config.get key) },
          virtio⟩) := by
  rw [checkAndPreserveCloudInitScsi_unfold]
  cases scsi
  rename_i _ _ d _ _ _ _ _ _ _ _ _ _ _ _ _ _ _ _ _ _ _ _ _ _ _ _ _ _ _ _
  cases d <;> cases hc : isCloudInitValue (config.get key) <;>
  simp [Ptr.field, Ptr.var, Ptr.pointee, Field.Storages.Scsi, Field.Scsi.Disk_2, slotResult, hc]

theorem checkAndPreserveCloudInitScsi_scsi3 (config : Config) (key : String)
    (ide : Option QemuIdeDisks) (sata : Option QemuSataDisks)
    (scsi : QemuScsiDisks) (virtio : Option QemuVirtIODisks) :
    checkAndPreserveCloudInitScsi config key (some (Addr.Scsi.field Field.Scsi.Disk_3))
        ⟨ide, sata, some scsi, virtio⟩ =
      Except.ok (config,
        ⟨ide, sata, some { scsi with Disk_3 := slotResult scsi.Disk_3 (config.get key) },
          virtio⟩) := by
  rw [checkAndPreserveCloudInitScsi_unfold]
  cases scsi
  rename_i _ _ _ d _ _ _ _ _ _ _ _ _ _ _ _ _ _ _ _ _ _ _ _ _ _ _ _ _ _ _
  cases d <;> cases hc : isCloudInitValue (config.get key) <;>
  simp [Ptr.field, Ptr.var, Ptr.pointee, Field.Storages.Scsi, Field.Scsi.Disk_3, slotResult, hc]

theorem preserveIfEmpty_ide2_resolved (config : Config) (key : String)
    (d0 d1 d3 x : Option QemuIdeStorage)
    (sata : Option QemuSataDisks) (scsi : Option QemuScsiDisks)
    (virtio : Option QemuVirtIODisks) :
    preserveIfEmpty config key (some Addr.Ide) 2
        ⟨some ⟨d0, d1, slotResult x (config.get key), d3⟩, sata, scsi, virtio⟩ =
      Except.ok (config,
        ⟨some ⟨d0, d1, slotResult x (config.get key), d3⟩, sata, scsi, virtio⟩) := by
  cases hv : config.get key with
  | none => simp [preserveIfEmpty, hv, bind, Except.bind, pure, Except.pure]
  | some v =>
    cases v with
    | str s =>
      cases hc : strings.Contains s "cloudinit" <;>
      simp [preserveIfEmpty, hv, hc, GoValue.asString, slotResult, isCloudInitValue, deref,
        Ptr.field, Ptr.var, Ptr.pointee, Field.Storages.Ide, bind, Except.bind, pure,
        Except.pure]
    | _ => simp [preserveIfEmpty, hv, GoValue.asString, bind, Except.bind, pure, Except.pure]

theorem preserveIfEmpty_ide3_resolved (config : Config) (key : String)
    (d0 d1 d2 x : Option QemuIdeStorage)
    (sata : Option QemuSataDisks) (scsi : Option QemuScsiDisks)
    (virtio : Option QemuVirtIODisks) :
    preserveIfEmpty config key (some Addr.Ide) 3
        ⟨some ⟨d0, d1, d2, slotResult x (config.get key)⟩, sata, scsi, virtio⟩ =
      Except.ok (config,
        ⟨some ⟨d0, d1, d2, slotResult x (config.get key)⟩, sata, scsi, virtio⟩) := by
  cases hv : config.get key with
  | none => simp [preserveIfEmpty, hv, bind, Except.bind, pure, Except.pure]
  | some v =>
    cases v with
    | str s =>
      cases hc : strings.Contains s "cloudinit" <;>
      simp [preserveIfEmpty, hv, hc, GoValue.asString, slotResult, isCloudInitValue, deref,
        Ptr.field, Ptr.var, Ptr.pointee, Field.Storages.Ide, bind, Except.bind, pure,
        Except.pure]
    | _ => simp [preserveIfEmpty, hv, GoValue.asString, bind, Except.bind, pure, Except.pure]

theorem preserveIfEmpty_nil {σ : Type} (config : Config) (diskSlot : String) (slot : Int)
    (mem : σ) :
    preserveIfEmpty config diskSlot none slot mem = Except.ok (config, mem) := by
  simp [preserveIfEmpty, pure, Except.pure]

theorem fieldIde_load (st : QemuStorages) :
    Field.Storages.Ide.load st = some st.Ide := rfl

theorem fieldSata_load (st : QemuStorages) :
    Field.Storages.Sata.load st = some st.Sata := rfl

theorem fieldScsi_load (st : QemuStorages) :
    Field.Storages.Scsi.load st = some st.Scsi := rfl

theorem addrIde_load (st : QemuStorages) : Addr.Ide.load st = st.Ide := rfl

theorem addrSata_load (st : QemuStorages) : Addr.Sata.load st = st.Sata := rfl

theorem addrScsi_load (st : QemuStorages) : Addr.Scsi.load st = st.Scsi := rfl

/-! ## The pass computes the specification -/

theorem PreserveCloudInitDrive_ok (client : Client) (vmr : VmRef) (config : Config)
    (hasCloudInitParams : Bool) (st : QemuStorages)
    (hfetch : client.GetVmConfig vmr = (config, none)) :
    PreserveCloudInitDrive client vmr (some Addr.storages) hasCloudInitParams st =
      Except.ok (none, resolveStorages config st) := by
  obtain ⟨ide, sata, scsi, virtio⟩ := st
  cases ide <;> cases sata <;> cases scsi <;> cases hasCloudInitParams <;>
  simp [PreserveCloudInitDrive, hfetch, loadPtr_var, fieldAddr_some, resolveStorages, resolveIde,
    resolveSata, resolveScsi, fieldIde_load, fieldSata_load,
    fieldScsi_load, addrIde_load, addrSata_load, addrScsi_load,
    checkAndPreserveCloudInit_ide0, checkAndPreserveCloudInit_ide1,
    checkAndPreserveCloudInit_ide2, checkAndPreserveCloudInit_ide3,
    checkAndPreserveCloudInitSata_sata0, checkAndPreserveCloudInitSata_sata1,
    checkAndPreserveCloudInitSata_sata2, checkAndPreserveCloudInitSata_sata3,
    checkAndPreserveCloudInitSata_sata4, checkAndPreserveCloudInitSata_sata5,
    checkAndPreserveCloudInitScsi_scsi0, checkAndPreserveCloudInitScsi_scsi1,
    checkAndPreserveCloudInitScsi_scsi2, checkAndPreserveCloudInitScsi_scsi3,
    preserveIfEmpty_ide2_resolved, preserveIfEmpty_ide3_resolved, preserveIfEmpty_nil,
    bind, Except.bind, pure, Except.pure]

/-! ## C1 -/

/-- C1: `checkAndPreserveCloudInit` clears the marker of a cloud-init slot.  For every
live configuration map, every slot identifier and every marker cell that holds a
present marker `m` (any `Delete` flag, any other contents): if the value of the map
at the slot is a string with `cloudinit` in it, whatever stands before and after,
the call returns and the marker is absent afterwards. -/
theorem checkAndPreserveCloudInit_clears_cloudinit {σ : Type} (config : Config)
    (diskSlot : String) (p : Ptr σ (Option QemuIdeStorage)) (mem : σ) (m : QemuIdeStorage)
    (pre post : String) (hp : p.IsCell) (hm : p.load mem = some (some m))
    (hv : config.get diskSlot = some (GoValue.str (pre ++ "cloudinit" ++ post))) :
    ∃ mem', checkAndPreserveCloudInit config diskSlot (some p) mem = Except.ok (config, mem') ∧
      p.load mem' = some none := by
  obtain ⟨mem', hstore, hload⟩ := hp mem none (by simp [hm])
  refine ⟨mem', ?_, hload⟩
  have hc : isCloudInitValue (config.get diskSlot) = true :=
    (isCloudInitValue_iff _).2 ⟨_, pre, post, hv, rfl⟩
  rw [checkAndPreserveCloudInit_unfold]
  simp [hm, hc, hstore]

/-- C1, on the inputs of the unit tests: the value `local-lvm:vm-100-cloudinit` at
`ide3` clears a marker with `Delete = true` held in a local variable, and so does
`local:cloudinit` at `ide2`. -/
theorem checkAndPreserveCloudInit_clears_cloudinit_witness :
    (∃ mem', checkAndPreserveCloudInit [("ide3", GoValue.str "local-lvm:vm-100-cloudinit")]
        "ide3" (some (Ptr.var (Option QemuIdeStorage))) (some ⟨true, 0⟩) =
          Except.ok ([("ide3", GoValue.str "local-lvm:vm-100-cloudinit")], mem') ∧
      (Ptr.var (Option QemuIdeStorage)).load mem' = some none) ∧
    (∃ mem', checkAndPreserveCloudInit [("ide2", GoValue.str "local:cloudinit")]
        "ide2" (some (Ptr.var (Option QemuIdeStorage))) (some ⟨true, 0⟩) =
          Except.ok ([("ide2", GoValue.str "local:cloudinit")], mem') ∧
      (Ptr.var (Option QemuIdeStorage)).load mem' = some none) :=
  ⟨checkAndPreserveCloudInit_clears_cloudinit
      [("ide3", GoValue.str "local-lvm:vm-100-cloudinit")] "ide3" _ _ ⟨true, 0⟩
      "local-lvm:vm-100-" "" (Ptr.var_isCell _) rfl (by decide),
    checkAndPreserveCloudInit_clears_cloudinit
      [("ide2", GoValue.str "local:cloudinit")] "ide2" _ _ ⟨true, 0⟩
      "local:" "" (Ptr.var_isCell _) rfl (by decide)⟩

/-! ## C2 -/

theorem classified_slotResult {α : Type} (config : Config) (key : String)
    (before : Option α) : Classified config key before (slotResult before (config.get key)) := by
  cases before <;> cases hc : isCloudInitValue (config.get key) <;>
  simp [Classified, slotResult, hc]

/-- C2: when the fetch of the live state succeeds, `PreserveCloudInitDrive` returns
no error and classifies every bounded slot with its own key.  For each bus that is
present, and each of its slots `ide0`..`ide3`, `sata0`..`sata5`, `scsi0`..`scsi3`,
the final marker is absent if and only if it was absent before or the live value at
the key of the slot is a string containing `cloudinit`; it is the original marker
otherwise; and it is a function (`slotResult`) of the marker of the slot and of the
live value of the slot alone.  This holds for either value of the flag. -/
theorem PreserveCloudInitDrive_classifies_each_slot (client : Client) (vmr : VmRef)
    (config : Config) (hasCloudInitParams : Bool) (st : QemuStorages)
    (hfetch : client.GetVmConfig vmr = (config, none)) :
    ∃ st', PreserveCloudInitDrive client vmr (some Addr.storages) hasCloudInitParams st =
        Except.ok (none, st') ∧
      (∀ ide, st.Ide = some ide → ∃ ide', st'.Ide = some ide' ∧
          Classified config "ide0" ide.Disk_0 ide'.Disk_0 ∧
          Classified config "ide1" ide.Disk_1 ide'.Disk_1 ∧
          Classified config "ide2" ide.Disk_2 ide'.Disk_2 ∧
          Classified config "ide3" ide.Disk_3 ide'.Disk_3) ∧
      (∀ sata, st.Sata = some sata → ∃ sata', st'.Sata = some sata' ∧
          Classified config "sata0" sata.Disk_0 sata'.Disk_0 ∧
          Classified config "sata1" sata.Disk_1 sata'.Disk_1 ∧
          Classified config "sata2" sata.Disk_2 sata'.Disk_2 ∧
          Classified config "sata3" sata.Disk_3 sata'.Disk_3 ∧
          Classified config "sata4" sata.Disk_4 sata'.Disk_4 ∧
          Classified config "sata5" sata.Disk_5 sata'.Disk_5) ∧
      (∀ scsi, st.Scsi = some scsi → ∃ scsi', st'.Scsi = some scsi' ∧
          Classified config "scsi0" scsi.Disk_0 scsi'.Disk_0 ∧
          Classified config "scsi1" scsi.Disk_1 scsi'.Disk_1 ∧
          Classified config "scsi2" scsi.Disk_2 scsi'.Disk_2 ∧
          Classified config "scsi3" scsi.Disk_3 scsi'.Disk_3) := by
  refine ⟨resolveStorages config st, PreserveCloudInitDrive_ok client vmr config _ st hfetch,
    ?_, ?_, ?_⟩
  · intro ide h
    exact ⟨resolveIde config ide, by simp [resolveStorages, h],
      classified_slotResult _ _ _, classified_slotResult _ _ _,
      classified_slotResult _ _ _, classified_slotResult _ _ _⟩
  · intro sata h
    exact ⟨resolveSata config sata, by simp [resolveStorages, h],
      classified_slotResult _ _ _, classified_slotResult _ _ _,
      classified_slotResult _ _ _, classified_slotResult _ _ _,
      classified_slotResult _ _ _, classified_slotResult _ _ _⟩
  · intro scsi h
    exact ⟨resolveScsi config scsi, by simp [resolveStorages, h],
      classified_slotResult _ _ _, classified_slotResult _ _ _,
      classified_slotResult _ _ _, classified_slotResult _ _ _⟩

/-- C2, on the data of the integration test: the fetch succeeds, the pass returns
no error, and the four IDE slots are classified, `ide3` being the one cleared. -/
theorem PreserveCloudInitDrive_classifies_each_slot_witness :
    Test.client.GetVmConfig 100 = (Test.config, none) ∧
    ∃ st', PreserveCloudInitDrive Test.client 100 (some Addr.storages) true Test.storages =
        Except.ok (none, st') ∧
      (∀ ide, Test.storages.Ide = some ide → ∃ ide', st'.Ide = some ide' ∧
          Classified Test.config "ide0" ide.Disk_0 ide'.Disk_0 ∧
          Classified Test.config "ide1" ide.Disk_1 ide'.Disk_1 ∧
          Classified Test.config "ide2" ide.Disk_2 ide'.Disk_2 ∧
          Classified Test.config "ide3" ide.Disk_3 ide'.Disk_3) :=
  ⟨rfl, (PreserveCloudInitDrive_classifies_each_slot Test.client 100 Test.config true
    Test.storages rfl).imp fun _ h => ⟨h.1, h.2.1⟩⟩

/-! ## C3 and C4 -/

theorem PreserveCloudInitDrive_fetch_error {σ : Type} (client : Client) (vmr : VmRef)
    (storages : Option (Ptr σ QemuStorages)) (hasCloudInitParams : Bool) (mem : σ) (e : Error)
    (hfetch : (client.GetVmConfig vmr).2 = some e) :
    PreserveCloudInitDrive client vmr storages hasCloudInitParams mem =
      Except.ok (some e, mem) := by
  rcases hres : client.GetVmConfig vmr with ⟨config, err⟩
  rw [hres] at hfetch
  simp only at hfetch
  subst hfetch
  simp [PreserveCloudInitDrive, hres, pure, Except.pure]

/-- C3: `PreserveCloudInitDrive` fails exactly when the fetch of the live state fails.
If the fetch returns an error `e`, the pass returns `e` itself, for every `storages`
pointer (nil included), every memory and either flag.  If the fetch returns no
error, the pass returns no error (and does not panic), for every snapshot, every
structure a non-nil `storages` points to and either flag. -/
theorem PreserveCloudInitDrive_error_iff_fetch_error (client : Client) (vmr : VmRef) :
    (∀ (σ : Type) (storages : Option (Ptr σ QemuStorages)) (hasCloudInitParams : Bool)
        (mem : σ) (e : Error), (client.GetVmConfig vmr).2 = some e →
        ∃ mem', PreserveCloudInitDrive client vmr storages hasCloudInitParams mem =
          Except.ok (some e, mem')) ∧
    (∀ (hasCloudInitParams : Bool) (st : QemuStorages), (client.GetVmConfig vmr).2 = none →
        ∃ st', PreserveCloudInitDrive client vmr (some Addr.storages) hasCloudInitParams st =
          Except.ok (none, st')) := by
  constructor
  · intro σ storages flag mem e h
    exact ⟨mem, PreserveCloudInitDrive_fetch_error client vmr storages flag mem e h⟩
  · intro flag st h
    exact ⟨resolveStorages (client.GetVmConfig vmr).1 st,
      PreserveCloudInitDrive_ok client vmr _ flag st (Prod.ext rfl h)⟩

/-- C3, on the data of the tests: a failing fetch gives its error back, through a
nil `storages` as well, and a fetch that succeeds gives no error. -/
theorem PreserveCloudInitDrive_error_iff_fetch_error_witness :
    ((Test.failingClient.GetVmConfig 100).2 = some "vm 100 not found" ∧
      ∃ mem', PreserveCloudInitDrive Test.failingClient 100
          (none : Option (Ptr QemuStorages QemuStorages)) true Test.storages =
        Except.ok (some "vm 100 not found", mem')) ∧
    ((Test.client.GetVmConfig 100).2 = none ∧
      ∃ st', PreserveCloudInitDrive Test.client 100 (some Addr.storages) true Test.storages =
        Except.ok (none, st')) :=
  ⟨⟨rfl, (PreserveCloudInitDrive_error_iff_fetch_error Test.failingClient 100).1 _ none true
      Test.storages _ rfl⟩,
    ⟨rfl, (PreserveCloudInitDrive_error_iff_fetch_error Test.client 100).2 true
      Test.storages rfl⟩⟩

/-- C4: atomicity on a failed fetch.  If the fetch of the live state returns an
error, `PreserveCloudInitDrive` returns it and leaves the whole memory, hence the
whole `storages` structure, exactly as it was, for either flag.  This holds for
every `storages` pointer, a nil one and one without a cell in the memory included,
through which any read of a marker would panic: no marker is read or cleared. -/
theorem PreserveCloudInitDrive_fetch_error_changes_nothing {σ : Type} (client : Client)
    (vmr : VmRef) (storages : Option (Ptr σ QemuStorages)) (hasCloudInitParams : Bool)
    (mem : σ) (e : Error) (hfetch : (client.GetVmConfig vmr).2 = some e) :
    PreserveCloudInitDrive client vmr storages hasCloudInitParams mem =
      Except.ok (some e, mem) :=
  PreserveCloudInitDrive_fetch_error client vmr storages hasCloudInitParams mem e hfetch

/-- C4, on the data of the tests: after a failing fetch the update of the
integration test is as it was, with the flag set. -/
theorem PreserveCloudInitDrive_fetch_error_changes_nothing_witness :
    (Test.failingClient.GetVmConfig 100).2 = some "vm 100 not found" ∧
    PreserveCloudInitDrive Test.failingClient 100 (some Addr.storages) true Test.storages =
      Except.ok (some "vm 100 not found", Test.storages) :=
  ⟨rfl, PreserveCloudInitDrive_fetch_error_changes_nothing Test.failingClient 100 _ true
    Test.storages _ rfl⟩

/-! ## C5 and C6 -/

theorem slotResult_of_not_cloudinit {α : Type} (before : Option α) (live : Option GoValue)
    (h : isCloudInitValue live = false) : slotResult before live = before := by
  cases before <;> simp [slotResult, h]

theorem checkAndPreserveCloudInit_of_not_cloudinit {σ : Type} (config : Config)
    (diskSlot : String) (p : Ptr σ (Option QemuIdeStorage)) (mem : σ)
    (b : Option QemuIdeStorage) (hm : p.load mem = some b)
    (h : isCloudInitValue (config.get diskSlot) = false) :
    checkAndPreserveCloudInit config diskSlot (some p) mem = Except.ok (config, mem) := by
  rw [checkAndPreserveCloudInit_unfold]
  simp [hm, h]

/-- C5: a slot with no live entry keeps its marker.  (1) When the live
configuration map has no entry for the slot identifier, `checkAndPreserveCloudInit`
returns and leaves the memory, and with it a present marker `m` of any `Delete`
flag, as it was.  (2) In the whole pass, whatever the fetch returns and for either
flag, `PreserveCloudInitDrive` returns, every bus is present afterwards if it was
before, the marker of each bounded slot whose key has no entry in the fetched map
is the marker of before, and so are the markers of the SCSI slots from 4 on and of
the VirtIO bus. -/
theorem no_live_entry_keeps_marker :
    (∀ (σ : Type) (config : Config) (diskSlot : String) (p : Ptr σ (Option QemuIdeStorage))
        (mem : σ) (m : QemuIdeStorage), p.load mem = some (some m) →
        config.get diskSlot = none →
        checkAndPreserveCloudInit config diskSlot (some p) mem = Except.ok (config, mem)) ∧
    (∀ (client : Client) (vmr : VmRef) (hasCloudInitParams : Bool) (st : QemuStorages)
        (config : Config), (client.GetVmConfig vmr).1 = config →
      ∃ err st', PreserveCloudInitDrive client vmr (some Addr.storages) hasCloudInitParams st =
          Except.ok (err, st') ∧
        (∀ ide, st.Ide = some ide → ∃ ide', st'.Ide = some ide' ∧
          (config.get "ide0" = none → ide'.Disk_0 = ide.Disk_0) ∧
          (config.get "ide1" = none → ide'.Disk_1 = ide.Disk_1) ∧
          (config.get "ide2" = none → ide'.Disk_2 = ide.Disk_2) ∧
          (config.get "ide3" = none → ide'.Disk_3 = ide.Disk_3)) ∧
        (∀ sata, st.Sata = some sata → ∃ sata', st'.Sata = some sata' ∧
          (config.get "sata0" = none → sata'.Disk_0 = sata.Disk_0) ∧
          (config.get "sata1" = none → sata'.Disk_1 = sata.Disk_1) ∧
          (config.get "sata2" = none → sata'.Disk_2 = sata.Disk_2) ∧
          (config.get "sata3" = none → sata'.Disk_3 = sata.Disk_3) ∧
          (config.get "sata4" = none → sata'.Disk_4 = sata.Disk_4) ∧
          (config.get "sata5" = none → sata'.Disk_5 = sata.Disk_5)) ∧
        (∀ scsi, st.Scsi = some scsi → ∃ scsi', st'.Scsi = some scsi' ∧
          (config.get "scsi0" = none → scsi'.Disk_0 = scsi.Disk_0) ∧
          (config.get "scsi1" = none → scsi'.Disk_1 = scsi.Disk_1) ∧
          (config.get "scsi2" = none → scsi'.Disk_2 = scsi.Disk_2) ∧
          (config.get "scsi3" = none → scsi'.Disk_3 = scsi.Disk_3) ∧
          scsi'.markers.drop 4 = scsi.markers.drop 4) ∧
        st'.VirtIo = st.VirtIo) := by
  constructor
  · intro σ config diskSlot p mem m hm hv
    exact checkAndPreserveCloudInit_of_not_cloudinit config diskSlot p mem _ hm
      (by simp [hv, isCloudInitValue])
  · intro client vmr flag st config hconfig
    have keep : ∀ (α : Type) (before : Option α) (key : String),
        config.get key = none → slotResult before (config.get key) = before := by
      intro α before key hk
      exact slotResult_of_not_cloudinit before _ (by simp [hk, isCloudInitValue])
    cases herr : (client.GetVmConfig vmr).2 with
    | some e =>
      refine ⟨some e, st, PreserveCloudInitDrive_fetch_error client vmr _ flag st e herr,
        ?_, ?_, ?_, rfl⟩
      · intro ide h
        exact ⟨ide, h, fun _ => rfl, fun _ => rfl, fun _ => rfl, fun _ => rfl⟩
      · intro sata h
        exact ⟨sata, h, fun _ => rfl, fun _ => rfl, fun _ => rfl, fun _ => rfl, fun _ => rfl,
          fun _ => rfl⟩
      · intro scsi h
        exact ⟨scsi, h, fun _ => rfl, fun _ => rfl, fun _ => rfl, fun _ => rfl, rfl⟩
    | none =>
      refine ⟨none, resolveStorages config st,
        PreserveCloudInitDrive_ok client vmr config flag st (Prod.ext hconfig herr),
        ?_, ?_, ?_, rfl⟩
      · intro ide h
        exact ⟨resolveIde config ide, by simp [resolveStorages, h],
          keep _ _ _, keep _ _ _, keep _ _ _, keep _ _ _⟩
      · intro sata h
        exact ⟨resolveSata config sata, by simp [resolveStorages, h],
          keep _ _ _, keep _ _ _, keep _ _ _, keep _ _ _, keep _ _ _, keep _ _ _⟩
      · intro scsi h
        exact ⟨resolveScsi config scsi, by simp [resolveStorages, h],
          keep _ _ _, keep _ _ _, keep _ _ _, keep _ _ _, rfl⟩

/-- C5, on the data of the tests: the unit test `Should handle missing disk slot`
(the map has `ide0` only, the slot is `ide3`), and the pass on the update of the
integration test, where `ide0` to `ide2` have no live entry and keep their
markers. -/
theorem no_live_entry_keeps_marker_witness :
    ((Ptr.var (Option QemuIdeStorage)).load (some ⟨true, 0⟩) = some (some ⟨true, 0⟩) ∧
      Config.get [("ide0", GoValue.str "local-lvm:vm-100-disk-0")] "ide3" = none ∧
      checkAndPreserveCloudInit [("ide0", GoValue.str "local-lvm:vm-100-disk-0")] "ide3"
          (some (Ptr.var (Option QemuIdeStorage))) (some ⟨true, 0⟩) =
        Except.ok ([("ide0", GoValue.str "local-lvm:vm-100-disk-0")], some ⟨true, 0⟩)) ∧
    ((Test.client.GetVmConfig 100).1 = Test.config ∧
      Test.storages.Ide = some Test.ide ∧ Test.config.get "ide0" = none ∧
      ∃ err st' ide', PreserveCloudInitDrive Test.client 100 (some Addr.storages) true
          Test.storages = Except.ok (err, st') ∧
        st'.Ide = some ide' ∧ ide'.Disk_0 = Test.ide.Disk_0) := by
  refine ⟨⟨rfl, by decide, no_live_entry_keeps_marker.1 _ _ "ide3" _ _ ⟨true, 0⟩ rfl
    (by decide)⟩, rfl, rfl, by decide, ?_⟩
  obtain ⟨err, st', hrun, hide, -⟩ :=
    no_live_entry_keeps_marker.2 Test.client 100 true Test.storages Test.config rfl
  obtain ⟨ide', hide', h0, -⟩ := hide Test.ide rfl
  exact ⟨err, st', ide', hrun, hide', h0 (by decide)⟩

/-- C6: a slot whose live value is not a cloud-init string keeps its marker.  When
the live configuration map has a value `v` at the slot, and `v` is a string with no
`cloudinit` in it or is not a string at all, `checkAndPreserveCloudInit` returns (it
does not panic) and leaves the memory, and with it a present marker, as it was. -/
theorem checkAndPreserveCloudInit_keeps_marker_of_other_value {σ : Type} (config : Config)
    (diskSlot : String) (p : Ptr σ (Option QemuIdeStorage)) (mem : σ) (m : QemuIdeStorage)
    (v : GoValue) (hm : p.load mem = some (some m)) (hv : config.get diskSlot = some v)
    (hs : ∀ pre post : String, v ≠ GoValue.str (pre ++ "cloudinit" ++ post)) :
    checkAndPreserveCloudInit config diskSlot (some p) mem = Except.ok (config, mem) := by
  apply checkAndPreserveCloudInit_of_not_cloudinit config diskSlot p mem _ hm
  rw [Bool.eq_false_iff]
  intro h
  obtain ⟨s, pre, post, hlive, rfl⟩ := (isCloudInitValue_iff _).1 h
  rw [hv] at hlive
  exact hs pre post (Option.some.inj hlive)

/-- C6, on the data of the tests: the unit test `Should not modify non-cloudinit
drive` (a disk volume at `ide0`), and a live value that is a number. -/
theorem checkAndPreserveCloudInit_keeps_marker_of_other_value_witness :
    checkAndPreserveCloudInit [("ide0", GoValue.str "local-lvm:vm-100-disk-0")] "ide0"
        (some (Ptr.var (Option QemuIdeStorage))) (some ⟨true, 0⟩) =
      Except.ok ([("ide0", GoValue.str "local-lvm:vm-100-disk-0")], some ⟨true, 0⟩) ∧
    checkAndPreserveCloudInit [("ide0", GoValue.number 7)] "ide0"
        (some (Ptr.var (Option QemuIdeStorage))) (some ⟨false, 3⟩) =
      Except.ok ([("ide0", GoValue.number 7)], some ⟨false, 3⟩) :=
  ⟨checkAndPreserveCloudInit_keeps_marker_of_other_value _ "ide0" _ _ ⟨true, 0⟩
      (GoValue.str "local-lvm:vm-100-disk-0") rfl (by decide)
      (fun pre post h => by
        have hc : strings.Contains "local-lvm:vm-100-disk-0" "cloudinit" = true :=
          (strings.Contains_iff _ _).2 ⟨pre, post, GoValue.str.inj h⟩
        revert hc
        decide),
    checkAndPreserveCloudInit_keeps_marker_of_other_value _ "ide0" _ _ ⟨false, 3⟩
      (GoValue.number 7) rfl (by decide) (fun pre post h => by cases h)⟩

/-! ## C7 -/

theorem preserveIfEmpty_only_clears {σ : Type} (config : Config) (diskSlot : String)
    (p : Ptr σ QemuIdeDisks) (slot : Int) (mem : σ) (d : QemuIdeDisks) (hp : p.IsCell)
    (hd : p.load mem = some d) :
    ∃ mem' d', preserveIfEmpty config diskSlot (some p) slot mem = Except.ok (config, mem') ∧
      p.load mem' = some d' ∧ List.Forall₂ clearedOrSame d.markers d'.markers := by
  have same : List.Forall₂ clearedOrSame d.markers d.markers := by
    simp [QemuIdeDisks.markers, clearedOrSame]
  have stay : ∀ r : Except Panic (Config × σ), r = Except.ok (config, mem) →
      ∃ mem' d', r = Except.ok (config, mem') ∧
        p.load mem' = some d' ∧ List.Forall₂ clearedOrSame d.markers d'.markers :=
    fun r hr => ⟨mem, d, hr, hd, same⟩
  obtain ⟨m0, hs0, hl0⟩ := hp mem { d with Disk_0 := none } (by simp [hd])
  obtain ⟨m1, hs1, hl1⟩ := hp mem { d with Disk_1 := none } (by simp [hd])
  obtain ⟨m2, hs2, hl2⟩ := hp mem { d with Disk_2 := none } (by simp [hd])
  obtain ⟨m3, hs3, hl3⟩ := hp mem { d with Disk_3 := none } (by simp [hd])
  cases hv : config.get diskSlot with
  | none => exact stay _ (by simp [preserveIfEmpty, hv, bind, Except.bind, pure, Except.pure])
  | some v =>
    cases v with
    | str s =>
      cases hc : strings.Contains s "cloudinit" with
      | false =>
        exact stay _ (by
          simp [preserveIfEmpty, hv, hc, GoValue.asString, bind, Except.bind, pure, Except.pure])
      | true =>
        by_cases h0 : slot = 0
        · cases hm : d.Disk_0 with
          | none =>
            exact stay _ (by
              simp [preserveIfEmpty, hv, hc, h0, hd, hm, deref, GoValue.asString, bind,
                Except.bind, pure, Except.pure])
          | some m =>
            cases hdel : m.Delete with
            | false =>
              exact stay _ (by
                simp [preserveIfEmpty, hv, hc, h0, hd, hm, hdel, deref, GoValue.asString, bind,
                  Except.bind, pure, Except.pure])
            | true =>
              refine ⟨m0, _, ?_, hl0, ?_⟩
              · simp [preserveIfEmpty, hv, hc, h0, hd, hm, hdel, deref, assign, fieldAddr,
                  Ptr.field, Field.Ide.Disk_0, hs0, GoValue.asString, bind,
                  Except.bind, pure, Except.pure]
              · simp [QemuIdeDisks.markers, clearedOrSame]
        · by_cases h1 : slot = 1
          · cases hm : d.Disk_1 with
            | none =>
              exact stay _ (by
                simp [preserveIfEmpty, hv, hc, h0, h1, hd, hm, deref, GoValue.asString, bind,
                  Except.bind, pure, Except.pure])
            | some m =>
              cases hdel : m.Delete with
              | false =>
                exact stay _ (by
                  simp [preserveIfEmpty, hv, hc, h0, h1, hd, hm, hdel, deref, GoValue.asString, bind,
                    Except.bind, pure, Except.pure])
              | true =>
                refine ⟨m1, _, ?_, hl1, ?_⟩
                · simp [preserveIfEmpty, hv, hc, h0, h1, hd, hm, hdel, deref, assign, fieldAddr,
                    Ptr.field, Field.Ide.Disk_1, hs1, GoValue.asString, bind,
                    Except.bind, pure, Except.pure]
                · simp [QemuIdeDisks.markers, clearedOrSame]
          · by_cases h2 : slot = 2
            · cases hm : d.Disk_2 with
              | none =>
                exact stay _ (by
                  simp [preserveIfEmpty, hv, hc, h0, h1, h2, hd, hm, deref, GoValue.asString, bind,
                    Except.bind, pure, Except.pure])
              | some m =>
                cases hdel : m.Delete with
                | false =>
                  exact stay _ (by
                    simp [preserveIfEmpty, hv, hc, h0, h1, h2, hd, hm, hdel, deref, GoValue.asString, bind,
                      Except.bind, pure, Except.pure])
                | true =>
                  refine ⟨m2, _, ?_, hl2, ?_⟩
                  · simp [preserveIfEmpty, hv, hc, h0, h1, h2, hd, hm, hdel, deref, assign, fieldAddr,
                      Ptr.field, Field.Ide.Disk_2, hs2, GoValue.asString, bind,
                      Except.bind, pure, Except.pure]
                  · simp [QemuIdeDisks.markers, clearedOrSame]
            · by_cases h3 : slot = 3
              · cases hm : d.Disk_3 with
                | none =>
                  exact stay _ (by
                    simp [preserveIfEmpty, hv, hc, h0, h1, h2, h3, hd, hm, deref, GoValue.asString, bind,
                      Except.bind, pure, Except.pure])
                | some m =>
                  cases hdel : m.Delete with
                  | false =>
                    exact stay _ (by
                      simp [preserveIfEmpty, hv, hc, h0, h1, h2, h3, hd, hm, hdel, deref, GoValue.asString, bind,
                        Except.bind, pure, Except.pure])
                  | true =>
                    refine ⟨m3, _, ?_, hl3, ?_⟩
                    · simp [preserveIfEmpty, hv, hc, h0, h1, h2, h3, hd, hm, hdel, deref, assign, fieldAddr,
                        Ptr.field, Field.Ide.Disk_3, hs3, GoValue.asString, bind,
                        Except.bind, pure, Except.pure]
                    · simp [QemuIdeDisks.markers, clearedOrSame]
              · exact stay _ (by
                  simp [preserveIfEmpty, hv, hc, h0, h1, h2, h3, GoValue.asString, bind, Except.bind,
                    pure, Except.pure])
    | _ =>
      exact stay _ (by
        simp [preserveIfEmpty, hv, GoValue.asString, bind, Except.bind, pure, Except.pure])

theorem checkAndPreserveCloudInit_only_clears {σ : Type} (config : Config) (diskSlot : String)
    (p : Ptr σ (Option QemuIdeStorage)) (mem : σ) (before : Option QemuIdeStorage) (hp : p.IsCell)
    (hb : p.load mem = some before) :
    ∃ mem' after, checkAndPreserveCloudInit config diskSlot (some p) mem = Except.ok (config, mem') ∧
      p.load mem' = some after ∧ clearedOrSame before after := by
  rw [checkAndPreserveCloudInit_unfold]
  cases hc : (before.isSome && isCloudInitValue (config.get diskSlot)) with
  | false => exact ⟨mem, before, by simp [hb, hc], hb, Or.inr rfl⟩
  | true =>
    obtain ⟨mem', hstore, hload⟩ := hp mem none (by simp [hb])
    exact ⟨mem', none, by simp [hb, hc, hstore], hload, Or.inl rfl⟩

theorem checkAndPreserveCloudInitSata_only_clears {σ : Type} (config : Config) (diskSlot : String)
    (p : Ptr σ (Option QemuSataStorage)) (mem : σ) (before : Option QemuSataStorage) (hp : p.IsCell)
    (hb : p.load mem = some before) :
    ∃ mem' after, checkAndPreserveCloudInitSata config diskSlot (some p) mem = Except.ok (config, mem') ∧
      p.load mem' = some after ∧ clearedOrSame before after := by
  rw [checkAndPreserveCloudInitSata_unfold]
  cases hc : (before.isSome && isCloudInitValue (config.get diskSlot)) with
  | false => exact ⟨mem, before, by simp [hb, hc], hb, Or.inr rfl⟩
  | true =>
    obtain ⟨mem', hstore, hload⟩ := hp mem none (by simp [hb])
    exact ⟨mem', none, by simp [hb, hc, hstore], hload, Or.inl rfl⟩

theorem checkAndPreserveCloudInitScsi_only_clears {σ : Type} (config : Config) (diskSlot : String)
    (p : Ptr σ (Option QemuScsiStorage)) (mem : σ) (before : Option QemuScsiStorage) (hp : p.IsCell)
    (hb : p.load mem = some before) :
    ∃ mem' after, checkAndPreserveCloudInitScsi config diskSlot (some p) mem = Except.ok (config, mem') ∧
      p.load mem' = some after ∧ clearedOrSame before after := by
  rw [checkAndPreserveCloudInitScsi_unfold]
  cases hc : (before.isSome && isCloudInitValue (config.get diskSlot)) with
  | false => exact ⟨mem, before, by simp [hb, hc], hb, Or.inr rfl⟩
  | true =>
    obtain ⟨mem', hstore, hload⟩ := hp mem none (by simp [hb])
    exact ⟨mem', none, by simp [hb, hc, hstore], hload, Or.inl rfl⟩

theorem clearedOrSame_slotResult {α : Type} (before : Option α) (live : Option GoValue) :
    clearedOrSame before (slotResult before live) := by
  cases before <;> cases hc : isCloudInitValue live <;> simp [clearedOrSame, slotResult, hc]

theorem onlyCleared_refl (st : QemuStorages) : OnlyCleared st st := by
  obtain ⟨ide, sata, scsi, virtio⟩ := st
  cases ide <;> cases sata <;> cases scsi <;> cases virtio <;>
  simp [OnlyCleared, busOnlyCleared, QemuIdeDisks.markers, QemuSataDisks.markers,
    QemuScsiDisks.markers, QemuVirtIODisks.markers, clearedOrSame]

theorem onlyCleared_resolveStorages (config : Config) (st : QemuStorages) :
    OnlyCleared st (resolveStorages config st) := by
  obtain ⟨ide, sata, scsi, virtio⟩ := st
  cases ide <;> cases sata <;> cases scsi <;> cases virtio <;>
  simp [OnlyCleared, busOnlyCleared, resolveStorages, resolveIde, resolveSata, resolveScsi,
    QemuIdeDisks.markers, QemuSataDisks.markers, QemuScsiDisks.markers,
    QemuVirtIODisks.markers, clearedOrSame_slotResult] <;>
  simp [clearedOrSame]

/-- C7: the only mutation is clearing.  (1) Through a nil pointer each of
`checkAndPreserveCloudInit`, `checkAndPreserveCloudInitSata`,
`checkAndPreserveCloudInitScsi` and `preserveIfEmpty` returns and leaves the memory
as it was.  (2)-(4) Through a pointer to a marker cell each classifier returns, and
the marker afterwards is absent or is the marker of before, `Delete` flag and other
contents included; an absent marker stays absent.  (5) Through a pointer to the IDE
markers `preserveIfEmpty` returns, for every `slot` number, and each of the four
markers afterwards is absent or is the marker of before.  (6) Whatever the fetch
returns and for either flag, `PreserveCloudInitDrive` returns, and every marker of
every bus afterwards is absent or is the marker of before, no bus appearing or
disappearing.  In every case the map `config` is returned as it was. -/
theorem only_mutation_is_clearing :
    (∀ (σ : Type) (config : Config) (diskSlot : String) (slot : Int) (mem : σ),
      checkAndPreserveCloudInit config diskSlot none mem = Except.ok (config, mem) ∧
      checkAndPreserveCloudInitSata config diskSlot none mem = Except.ok (config, mem) ∧
      checkAndPreserveCloudInitScsi config diskSlot none mem = Except.ok (config, mem) ∧
      preserveIfEmpty config diskSlot none slot mem = Except.ok (config, mem)) ∧
    (∀ (σ : Type) (config : Config) (diskSlot : String) (p : Ptr σ (Option QemuIdeStorage))
        (mem : σ) (before : Option QemuIdeStorage), p.IsCell → p.load mem = some before →
      ∃ mem' after, checkAndPreserveCloudInit config diskSlot (some p) mem = Except.ok (config, mem') ∧
        p.load mem' = some after ∧ clearedOrSame before after) ∧
    (∀ (σ : Type) (config : Config) (diskSlot : String) (p : Ptr σ (Option QemuSataStorage))
        (mem : σ) (before : Option QemuSataStorage), p.IsCell → p.load mem = some before →
      ∃ mem' after, checkAndPreserveCloudInitSata config diskSlot (some p) mem = Except.ok (config, mem') ∧
        p.load mem' = some after ∧ clearedOrSame before after) ∧
    (∀ (σ : Type) (config : Config) (diskSlot : String) (p : Ptr σ (Option QemuScsiStorage))
        (mem : σ) (before : Option QemuScsiStorage), p.IsCell → p.load mem = some before →
      ∃ mem' after, checkAndPreserveCloudInitScsi config diskSlot (some p) mem = Except.ok (config, mem') ∧
        p.load mem' = some after ∧ clearedOrSame before after) ∧
    (∀ (σ : Type) (config : Config) (diskSlot : String) (p : Ptr σ QemuIdeDisks) (slot : Int)
        (mem : σ) (d : QemuIdeDisks), p.IsCell → p.load mem = some d →
      ∃ mem' d', preserveIfEmpty config diskSlot (some p) slot mem = Except.ok (config, mem') ∧
        p.load mem' = some d' ∧ List.Forall₂ clearedOrSame d.markers d'.markers) ∧
    (∀ (client : Client) (vmr : VmRef) (hasCloudInitParams : Bool) (st : QemuStorages),
      ∃ err st', PreserveCloudInitDrive client vmr (some Addr.storages) hasCloudInitParams st =
          Except.ok (err, st') ∧
        OnlyCleared st st') := by
  refine ⟨?_, ?_, ?_, ?_, ?_, ?_⟩
  · intro σ config diskSlot slot mem
    exact ⟨checkAndPreserveCloudInit_nil _ _ _, checkAndPreserveCloudInitSata_nil _ _ _,
      checkAndPreserveCloudInitScsi_nil _ _ _, preserveIfEmpty_nil _ _ _ _⟩
  · intro σ config diskSlot p mem before hp hb
    exact checkAndPreserveCloudInit_only_clears config diskSlot p mem before hp hb
  · intro σ config diskSlot p mem before hp hb
    exact checkAndPreserveCloudInitSata_only_clears config diskSlot p mem before hp hb
  · intro σ config diskSlot p mem before hp hb
    exact checkAndPreserveCloudInitScsi_only_clears config diskSlot p mem before hp hb
  · intro σ config diskSlot p slot mem d hp hd
    exact preserveIfEmpty_only_clears config diskSlot p slot mem d hp hd
  · intro client vmr flag st
    cases herr : (client.GetVmConfig vmr).2 with
    | some e =>
      exact ⟨some e, st, PreserveCloudInitDrive_fetch_error client vmr _ flag st e herr,
        onlyCleared_refl st⟩
    | none =>
      exact ⟨none, resolveStorages (client.GetVmConfig vmr).1 st,
        PreserveCloudInitDrive_ok client vmr _ flag st (Prod.ext rfl herr),
        onlyCleared_resolveStorages _ st⟩

/-- C7, on the data of the tests: the unit test `Should handle nil storage` (an
absent marker stays absent), the three classifiers on a present marker held in a
local variable, and `preserveIfEmpty` on the IDE markers of the integration test. -/
theorem only_mutation_is_clearing_witness :
    (∃ mem' after, checkAndPreserveCloudInit [] "ide3"
        (some (Ptr.var (Option QemuIdeStorage))) none = Except.ok ([], mem') ∧
      (Ptr.var (Option QemuIdeStorage)).load mem' = some after ∧
      clearedOrSame none after) ∧
    (∃ mem' after, checkAndPreserveCloudInitSata Test.config "sata0"
        (some (Ptr.var (Option QemuSataStorage))) (some ⟨true, 0⟩) =
          Except.ok (Test.config, mem') ∧
      (Ptr.var (Option QemuSataStorage)).load mem' = some after ∧
      clearedOrSame (some ⟨true, 0⟩) after) ∧
    (∃ mem' after, checkAndPreserveCloudInitScsi Test.config "scsi0"
        (some (Ptr.var (Option QemuScsiStorage))) (some ⟨true, 0⟩) =
          Except.ok (Test.config, mem') ∧
      (Ptr.var (Option QemuScsiStorage)).load mem' = some after ∧
      clearedOrSame (some ⟨true, 0⟩) after) ∧
    (∃ mem' d', preserveIfEmpty Test.config "ide3" (some (Ptr.var QemuIdeDisks)) 3 Test.ide =
          Except.ok (Test.config, mem') ∧
      (Ptr.var QemuIdeDisks).load mem' = some d' ∧
      List.Forall₂ clearedOrSame Test.ide.markers d'.markers) :=
  ⟨only_mutation_is_clearing.2.1 _ _ _ _ _ _ (Ptr.var_isCell _) rfl,
    only_mutation_is_clearing.2.2.1 _ _ _ _ _ _ (Ptr.var_isCell _) rfl,
    only_mutation_is_clearing.2.2.2.1 _ _ _ _ _ _ (Ptr.var_isCell _) rfl,
    only_mutation_is_clearing.2.2.2.2.1 _ _ _ _ _ _ _ (Ptr.var_isCell _) rfl⟩

/-! ## C8 -/

/-- C8: cross-slot independence.  In an update whose IDE bus is present,
`checkAndPreserveCloudInit` applied to the marker of one IDE slot (`ide3` with
`&storages.Ide.Disk_3`, and likewise `Disk_2`, `Disk_1`, `Disk_0`), for every live
configuration map and every slot identifier, returns the map as it was and leaves
the markers of the three other IDE slots, the SATA bus, the SCSI bus and the VirtIO
bus as they were, whatever the live values of those other slots. -/
theorem checkAndPreserveCloudInit_leaves_other_slots (config : Config) (diskSlot : String)
    (st : QemuStorages) (ide : QemuIdeDisks) (hide : st.Ide = some ide) :
    (∃ st' ide', checkAndPreserveCloudInit config diskSlot
          (some (Addr.Ide.field Field.Ide.Disk_3)) st = Except.ok (config, st') ∧
        st'.Ide = some ide' ∧ ide'.Disk_0 = ide.Disk_0 ∧ ide'.Disk_1 = ide.Disk_1 ∧ ide'.Disk_2 = ide.Disk_2 ∧
        st'.Sata = st.Sata ∧ st'.Scsi = st.Scsi ∧ st'.VirtIo = st.VirtIo) ∧
    (∃ st' ide', checkAndPreserveCloudInit config diskSlot
          (some (Addr.Ide.field Field.Ide.Disk_2)) st = Except.ok (config, st') ∧
        st'.Ide = some ide' ∧ ide'.Disk_0 = ide.Disk_0 ∧ ide'.Disk_1 = ide.Disk_1 ∧ ide'.Disk_3 = ide.Disk_3 ∧
        st'.Sata = st.Sata ∧ st'.Scsi = st.Scsi ∧ st'.VirtIo = st.VirtIo) ∧
    (∃ st' ide', checkAndPreserveCloudInit config diskSlot
          (some (Addr.Ide.field Field.Ide.Disk_1)) st = Except.ok (config, st') ∧
        st'.Ide = some ide' ∧ ide'.Disk_0 = ide.Disk_0 ∧ ide'.Disk_2 = ide.Disk_2 ∧ ide'.Disk_3 = ide.Disk_3 ∧
        st'.Sata = st.Sata ∧ st'.Scsi = st.Scsi ∧ st'.VirtIo = st.VirtIo) ∧
    (∃ st' ide', checkAndPreserveCloudInit config diskSlot
          (some (Addr.Ide.field Field.Ide.Disk_0)) st = Except.ok (config, st') ∧
        st'.Ide = some ide' ∧ ide'.Disk_1 = ide.Disk_1 ∧ ide'.Disk_2 = ide.Disk_2 ∧ ide'.Disk_3 = ide.Disk_3 ∧
        st'.Sata = st.Sata ∧ st'.Scsi = st.Scsi ∧ st'.VirtIo = st.VirtIo) := by
  obtain ⟨ide0, sata, scsi, virtio⟩ := st
  simp only at hide
  subst hide
  refine ⟨?_, ?_, ?_, ?_⟩
  · exact ⟨_, _, checkAndPreserveCloudInit_ide3 config diskSlot ide sata scsi virtio, rfl,
      rfl, rfl, rfl, rfl, rfl, rfl⟩
  · exact ⟨_, _, checkAndPreserveCloudInit_ide2 config diskSlot ide sata scsi virtio, rfl,
      rfl, rfl, rfl, rfl, rfl, rfl⟩
  · exact ⟨_, _, checkAndPreserveCloudInit_ide1 config diskSlot ide sata scsi virtio, rfl,
      rfl, rfl, rfl, rfl, rfl, rfl⟩
  · exact ⟨_, _, checkAndPreserveCloudInit_ide0 config diskSlot ide sata scsi virtio, rfl,
      rfl, rfl, rfl, rfl, rfl, rfl⟩

/-- C8, on the update of the integration test, with a live map in which `ide0` and
`ide3` both hold a cloud-init volume: classifying `ide3` leaves `ide0` to `ide2` and
the other buses as they were. -/
theorem checkAndPreserveCloudInit_leaves_other_slots_witness :
    Test.storages.Ide = some Test.ide ∧
    ∃ st' ide', checkAndPreserveCloudInit
          [("ide0", GoValue.str "local:cloudinit"), ("ide3", GoValue.str "local:cloudinit")]
          "ide3" (some (Addr.Ide.field Field.Ide.Disk_3)) Test.storages =
        Except.ok ([("ide0", GoValue.str "local:cloudinit"),
          ("ide3", GoValue.str "local:cloudinit")], st') ∧
      st'.Ide = some ide' ∧ ide'.Disk_0 = Test.ide.Disk_0 ∧ ide'.Disk_1 = Test.ide.Disk_1 ∧
      ide'.Disk_2 = Test.ide.Disk_2 ∧
      st'.Sata = Test.storages.Sata ∧ st'.Scsi = Test.storages.Scsi ∧
      st'.VirtIo = Test.storages.VirtIo :=
  ⟨rfl, (checkAndPreserveCloudInit_leaves_other_slots _ "ide3" Test.storages Test.ide rfl).1⟩

/-! ## C9 -/

/-- C9: the activation of the heuristic.  Let the live value at `diskSlot` be a
string with `cloudinit` in it (as `ide3` = `local-lvm:vm-100-cloudinit`), and let
`ide` point to the IDE markers `d`.  For `slot` 2, and likewise for `slot` 3:
if the marker of the slot is present with `Delete = true`, `preserveIfEmpty` returns
and the markers are `d` with that marker absent; if the marker is present with
`Delete = false`, or is absent, `preserveIfEmpty` returns and the memory is as it
was. -/
theorem preserveIfEmpty_activation {σ : Type} (config : Config) (diskSlot : String)
    (p : Ptr σ QemuIdeDisks) (mem : σ) (d : QemuIdeDisks) (pre post : String)
    (hp : p.IsCell) (hd : p.load mem = some d)
    (hv : config.get diskSlot = some (GoValue.str (pre ++ "cloudinit" ++ post))) :
    ((∀ m, d.Disk_2 = some m → m.Delete = true →
        ∃ mem', preserveIfEmpty config diskSlot (some p) 2 mem = Except.ok (config, mem') ∧
          p.load mem' = some { d with Disk_2 := none }) ∧
      (∀ m, d.Disk_2 = some m → m.Delete = false →
        preserveIfEmpty config diskSlot (some p) 2 mem = Except.ok (config, mem)) ∧
      (d.Disk_2 = none →
        preserveIfEmpty config diskSlot (some p) 2 mem = Except.ok (config, mem))) ∧
    ((∀ m, d.Disk_3 = some m → m.Delete = true →
        ∃ mem', preserveIfEmpty config diskSlot (some p) 3 mem = Except.ok (config, mem') ∧
          p.load mem' = some { d with Disk_3 := none }) ∧
      (∀ m, d.Disk_3 = some m → m.Delete = false →
        preserveIfEmpty config diskSlot (some p) 3 mem = Except.ok (config, mem)) ∧
      (d.Disk_3 = none →
        preserveIfEmpty config diskSlot (some p) 3 mem = Except.ok (config, mem))) := by
  have hc : strings.Contains (pre ++ "cloudinit" ++ post) "cloudinit" = true :=
    (strings.Contains_iff _ _).2 ⟨pre, post, rfl⟩
  refine ⟨?_, ?_⟩
  · refine ⟨?_, ?_, ?_⟩
    · intro m hm hdel
      obtain ⟨mem', hstore, hload⟩ := hp mem { d with Disk_2 := none } (by simp [hd])
      refine ⟨mem', ?_, hload⟩
      simp [preserveIfEmpty, hv, hc, hd, hm, hdel, deref, assign, fieldAddr, Ptr.field,
        Field.Ide.Disk_2, hstore, GoValue.asString, bind, Except.bind, pure, Except.pure]
    · intro m hm hdel
      simp [preserveIfEmpty, hv, hc, hd, hm, hdel, deref, GoValue.asString, bind, Except.bind,
        pure, Except.pure]
    · intro hm
      simp [preserveIfEmpty, hv, hc, hd, hm, deref, GoValue.asString, bind, Except.bind,
        pure, Except.pure]
  · refine ⟨?_, ?_, ?_⟩
    · intro m hm hdel
      obtain ⟨mem', hstore, hload⟩ := hp mem { d with Disk_3 := none } (by simp [hd])
      refine ⟨mem', ?_, hload⟩
      simp [preserveIfEmpty, hv, hc, hd, hm, hdel, deref, assign, fieldAddr, Ptr.field,
        Field.Ide.Disk_3, hstore, GoValue.asString, bind, Except.bind, pure, Except.pure]
    · intro m hm hdel
      simp [preserveIfEmpty, hv, hc, hd, hm, hdel, deref, GoValue.asString, bind, Except.bind,
        pure, Except.pure]
    · intro hm
      simp [preserveIfEmpty, hv, hc, hd, hm, deref, GoValue.asString, bind, Except.bind,
        pure, Except.pure]

/-- C9, on the data of the integration test: with `ide3` =
`local-lvm:vm-100-cloudinit` and `Delete = true` on `ide3`, the step with `slot` 3
clears the marker of `ide3` and no other. -/
theorem preserveIfEmpty_activation_witness :
    Test.config.get "ide3" = some (GoValue.str ("local-lvm:vm-100-" ++ "cloudinit" ++ "")) ∧
    ∃ mem', preserveIfEmpty Test.config "ide3" (some (Ptr.var QemuIdeDisks)) 3 Test.ide =
        Except.ok (Test.config, mem') ∧
      (Ptr.var QemuIdeDisks).load mem' = some { Test.ide with Disk_3 := none } :=
  ⟨by decide,
    (preserveIfEmpty_activation Test.config "ide3" (Ptr.var QemuIdeDisks) Test.ide Test.ide
      "local-lvm:vm-100-" "" (Ptr.var_isCell _) rfl (by decide)).2.1 ⟨true, 0⟩ rfl rfl⟩

/-! ## C10 -/

/-- C10: the scope of the heuristic.  For every client, hence every live snapshot,
and every update, `PreserveCloudInitDrive` returns with the flag set and with the
flag not set, with the same error, and the markers of the IDE slots 0 and 1, of
every SATA slot and of every SCSI slot are the same after both runs. -/
theorem PreserveCloudInitDrive_flag_scope (client : Client) (vmr : VmRef)
    (st : QemuStorages) :
    ∃ err stTrue stFalse,
      PreserveCloudInitDrive client vmr (some Addr.storages) true st =
        Except.ok (err, stTrue) ∧
      PreserveCloudInitDrive client vmr (some Addr.storages) false st =
        Except.ok (err, stFalse) ∧
      Option.map QemuIdeDisks.Disk_0 stTrue.Ide = Option.map QemuIdeDisks.Disk_0 stFalse.Ide ∧
      Option.map QemuIdeDisks.Disk_1 stTrue.Ide = Option.map QemuIdeDisks.Disk_1 stFalse.Ide ∧
      stTrue.Sata = stFalse.Sata ∧ stTrue.Scsi = stFalse.Scsi := by
  cases herr : (client.GetVmConfig vmr).2 with
  | some e =>
    exact ⟨some e, st, st, PreserveCloudInitDrive_fetch_error client vmr _ true st e herr,
      PreserveCloudInitDrive_fetch_error client vmr _ false st e herr, rfl, rfl, rfl, rfl⟩
  | none =>
    exact ⟨none, _, _,
      PreserveCloudInitDrive_ok client vmr _ true st (Prod.ext rfl herr),
      PreserveCloudInitDrive_ok client vmr _ false st (Prod.ext rfl herr), rfl, rfl, rfl, rfl⟩

/-! ## C11 -/

/-- C11: safety on an absent marker reference.  (1) Through a nil pointer each of
`checkAndPreserveCloudInit`, `checkAndPreserveCloudInitSata`,
`checkAndPreserveCloudInitScsi` and, for a nil IDE container, `preserveIfEmpty`
returns without a panic and leaves the memory as it was, for every live
configuration map, slot identifier and `slot` number.  (2) Through a pointer to a
marker variable that is nil, each classifier returns without a panic and leaves the
memory, and so the nil marker, as it was.  (3) Whatever the fetch returns and for
either flag, `PreserveCloudInitDrive` on an update returns without a panic, and each
of the buses `Ide`, `Sata`, `Scsi` that was nil is nil afterwards. -/
theorem absent_reference_is_safe :
    (∀ (σ : Type) (config : Config) (diskSlot : String) (slot : Int) (mem : σ),
      checkAndPreserveCloudInit config diskSlot none mem = Except.ok (config, mem) ∧
      checkAndPreserveCloudInitSata config diskSlot none mem = Except.ok (config, mem) ∧
      checkAndPreserveCloudInitScsi config diskSlot none mem = Except.ok (config, mem) ∧
      preserveIfEmpty config diskSlot none slot mem = Except.ok (config, mem)) ∧
    (∀ (σ : Type) (config : Config) (diskSlot : String) (mem : σ),
      (∀ p : Ptr σ (Option QemuIdeStorage), p.load mem = some none →
        checkAndPreserveCloudInit config diskSlot (some p) mem = Except.ok (config, mem)) ∧
      (∀ p : Ptr σ (Option QemuSataStorage), p.load mem = some none →
        checkAndPreserveCloudInitSata config diskSlot (some p) mem =
          Except.ok (config, mem)) ∧
      (∀ p : Ptr σ (Option QemuScsiStorage), p.load mem = some none →
        checkAndPreserveCloudInitScsi config diskSlot (some p) mem =
          Except.ok (config, mem))) ∧
    (∀ (client : Client) (vmr : VmRef) (hasCloudInitParams : Bool) (st : QemuStorages),
      ∃ err st', PreserveCloudInitDrive client vmr (some Addr.storages) hasCloudInitParams st =
          Except.ok (err, st') ∧
        (st.Ide = none → st'.Ide = none) ∧
        (st.Sata = none → st'.Sata = none) ∧
        (st.Scsi = none → st'.Scsi = none)) := by
  refine ⟨?_, ?_, ?_⟩
  · intro σ config diskSlot slot mem
    exact ⟨checkAndPreserveCloudInit_nil _ _ _, checkAndPreserveCloudInitSata_nil _ _ _,
      checkAndPreserveCloudInitScsi_nil _ _ _, preserveIfEmpty_nil _ _ _ _⟩
  · intro σ config diskSlot mem
    refine ⟨?_, ?_, ?_⟩
    · intro p h
      rw [checkAndPreserveCloudInit_unfold]
      simp [h]
    · intro p h
      rw [checkAndPreserveCloudInitSata_unfold]
      simp [h]
    · intro p h
      rw [checkAndPreserveCloudInitScsi_unfold]
      simp [h]
  · intro client vmr flag st
    cases herr : (client.GetVmConfig vmr).2 with
    | some e =>
      exact ⟨some e, st, PreserveCloudInitDrive_fetch_error client vmr _ flag st e herr,
        id, id, id⟩
    | none =>
      refine ⟨none, resolveStorages (client.GetVmConfig vmr).1 st,
        PreserveCloudInitDrive_ok client vmr _ flag st (Prod.ext rfl herr), ?_, ?_, ?_⟩ <;>
      · intro h
        simp [resolveStorages, h]

/-- C11, on the data of the tests: the classifier through a nil pointer, the unit
test `Should handle nil storage` with a live cloud-init volume at the slot, and the
pass with the flag set on an update with no bus at all. -/
theorem absent_reference_is_safe_witness :
    checkAndPreserveCloudInit Test.config "ide3" none Test.storages =
      Except.ok (Test.config, Test.storages) ∧
    checkAndPreserveCloudInit Test.config "ide3" (some (Ptr.var (Option QemuIdeStorage)))
      none = Except.ok (Test.config, none) ∧
    ∃ err st', PreserveCloudInitDrive Test.client 100 (some Addr.storages) true
          ⟨none, none, none, none⟩ = Except.ok (err, st') ∧
        st'.Ide = none ∧ st'.Sata = none ∧ st'.Scsi = none := by
  refine ⟨(absent_reference_is_safe.1 _ Test.config "ide3" 3 Test.storages).1,
    (absent_reference_is_safe.2.1 _ Test.config "ide3" none).1 _ rfl, ?_⟩
  obtain ⟨err, st', hrun, h1, h2, h3⟩ :=
    absent_reference_is_safe.2.2 Test.client 100 true ⟨none, none, none, none⟩
  exact ⟨err, st', hrun, h1 rfl, h2 rfl, h3 rfl⟩

/-! ## C12 -/

/-- C12: slots outside the bounded ranges are never touched.  Whatever the fetch
returns, for every live snapshot and either flag, `PreserveCloudInitDrive` on an
update returns, the VirtIO bus afterwards is the VirtIO bus of before, and the
markers of the SCSI slots 4 to 30 are the markers of before, whatever the live
values at `scsi4` and the like and whatever those markers ask for. -/
theorem PreserveCloudInitDrive_leaves_unbounded_slots (client : Client) (vmr : VmRef)
    (hasCloudInitParams : Bool) (st : QemuStorages) :
    ∃ err st', PreserveCloudInitDrive client vmr (some Addr.storages) hasCloudInitParams st =
        Except.ok (err, st') ∧
      st'.VirtIo = st.VirtIo ∧
      (st.Scsi = none → st'.Scsi = none) ∧
      (∀ scsi, st.Scsi = some scsi → ∃ scsi', st'.Scsi = some scsi' ∧
          scsi'.Disk_4 = scsi.Disk_4 ∧ scsi'.Disk_5 = scsi.Disk_5 ∧ scsi'.Disk_6 = scsi.Disk_6 ∧
          scsi'.Disk_7 = scsi.Disk_7 ∧ scsi'.Disk_8 = scsi.Disk_8 ∧ scsi'.Disk_9 = scsi.Disk_9 ∧
          scsi'.Disk_10 = scsi.Disk_10 ∧ scsi'.Disk_11 = scsi.Disk_11 ∧ scsi'.Disk_12 = scsi.Disk_12 ∧
          scsi'.Disk_13 = scsi.Disk_13 ∧ scsi'.Disk_14 = scsi.Disk_14 ∧ scsi'.Disk_15 = scsi.Disk_15 ∧
          scsi'.Disk_16 = scsi.Disk_16 ∧ scsi'.Disk_17 = scsi.Disk_17 ∧ scsi'.Disk_18 = scsi.Disk_18 ∧
          scsi'.Disk_19 = scsi.Disk_19 ∧ scsi'.Disk_20 = scsi.Disk_20 ∧ scsi'.Disk_21 = scsi.Disk_21 ∧
          scsi'.Disk_22 = scsi.Disk_22 ∧ scsi'.Disk_23 = scsi.Disk_23 ∧ scsi'.Disk_24 = scsi.Disk_24 ∧
          scsi'.Disk_25 = scsi.Disk_25 ∧ scsi'.Disk_26 = scsi.Disk_26 ∧ scsi'.Disk_27 = scsi.Disk_27 ∧
          scsi'.Disk_28 = scsi.Disk_28 ∧ scsi'.Disk_29 = scsi.Disk_29 ∧ scsi'.Disk_30 = scsi.Disk_30) := by
  cases herr : (client.GetVmConfig vmr).2 with
  | some e =>
    refine ⟨some e, st, PreserveCloudInitDrive_fetch_error client vmr _ _ st e herr, rfl, id,
      ?_⟩
    intro scsi h
    exact ⟨scsi, h, by simp⟩
  | none =>
    refine ⟨none, resolveStorages (client.GetVmConfig vmr).1 st,
      PreserveCloudInitDrive_ok client vmr _ _ st (Prod.ext rfl herr), rfl, ?_, ?_⟩
    · intro h
      simp [resolveStorages, h]
    · intro scsi h
      exact ⟨resolveScsi (client.GetVmConfig vmr).1 scsi, by simp [resolveStorages, h],
        by simp [resolveScsi]⟩

/-- C12, on an update with markers that ask for the deletion of `scsi4` and of
`virtio0`, and a live map with cloud-init volumes at `scsi4` and `virtio0`: after the
pass with the flag set both markers are still there. -/
theorem PreserveCloudInitDrive_leaves_unbounded_slots_witness :
    Test.wideConfig.get "scsi4" = some (GoValue.str "local-lvm:vm-100-cloudinit") ∧
    ∃ err st' scsi', PreserveCloudInitDrive Test.wideClient 100 (some Addr.storages) true
          Test.wideStorages = Except.ok (err, st') ∧
        st'.VirtIo = some Test.virtio ∧ st'.Scsi = some scsi' ∧
        scsi'.Disk_4 = some { Delete := true, rest := 0 } := by
  refine ⟨by decide, ?_⟩
  obtain ⟨err, st', hrun, hv, -, hscsi⟩ :=
    PreserveCloudInitDrive_leaves_unbounded_slots Test.wideClient 100 true Test.wideStorages
  obtain ⟨scsi', hs, h4, -⟩ := hscsi Test.scsi rfl
  exact ⟨err, st', scsi', hrun, hv, hs, h4⟩

/-! ## C13 -/

theorem isCloudInitValue_eq_false (live : Option GoValue)
    (h : ∀ pre post : String, live ≠ some (GoValue.str (pre ++ "cloudinit" ++ post))) :
    isCloudInitValue live = false := by
  rw [Bool.eq_false_iff]
  intro hc
  obtain ⟨s, pre, post, hlive, rfl⟩ := (isCloudInitValue_iff live).1 hc
  exact h pre post hlive

/-- C13, as the code has it: with the flag set, the heuristic of the IDE slots 2 and 3
still needs a live cloud-init string.  After a fetch that succeeds, a pending marker
`m` on `ide2`, and likewise on `ide3`, with `Delete = true` as with any `Delete`
flag, is the same marker after `PreserveCloudInitDrive` with the flag set when the
live snapshot has no string with `cloudinit` in it at that slot (no entry, no
string, or another string). -/
theorem PreserveCloudInitDrive_heuristic_needs_cloudinit (client : Client) (vmr : VmRef)
    (config : Config) (st : QemuStorages) (ide : QemuIdeDisks) (m : QemuIdeStorage)
    (hfetch : client.GetVmConfig vmr = (config, none)) (hide : st.Ide = some ide) :
    (ide.Disk_2 = some m →
      (∀ pre post : String,
        config.get "ide2" ≠ some (GoValue.str (pre ++ "cloudinit" ++ post))) →
      ∃ st' ide', PreserveCloudInitDrive client vmr (some Addr.storages) true st =
          Except.ok (none, st') ∧
        st'.Ide = some ide' ∧ ide'.Disk_2 = some m) ∧
    (ide.Disk_3 = some m →
      (∀ pre post : String,
        config.get "ide3" ≠ some (GoValue.str (pre ++ "cloudinit" ++ post))) →
      ∃ st' ide', PreserveCloudInitDrive client vmr (some Addr.storages) true st =
          Except.ok (none, st') ∧
        st'.Ide = some ide' ∧ ide'.Disk_3 = some m) := by
  constructor
  · intro hm hlive
    refine ⟨resolveStorages config st, resolveIde config ide,
      PreserveCloudInitDrive_ok client vmr config true st hfetch,
      by simp [resolveStorages, hide], ?_⟩
    simp only [resolveIde]
    rw [slotResult_of_not_cloudinit _ _ (isCloudInitValue_eq_false _ hlive), hm]
  · intro hm hlive
    refine ⟨resolveStorages config st, resolveIde config ide,
      PreserveCloudInitDrive_ok client vmr config true st hfetch,
      by simp [resolveStorages, hide], ?_⟩
    simp only [resolveIde]
    rw [slotResult_of_not_cloudinit _ _ (isCloudInitValue_eq_false _ hlive), hm]

/-- C13, as the code has it, on an update that asks for the deletion of `ide2` while
the live value at `ide2` is a plain disk volume: the marker is kept with the flag
set. -/
theorem PreserveCloudInitDrive_heuristic_needs_cloudinit_witness :
    Test.wideClient.GetVmConfig 100 = (Test.wideConfig, none) ∧
    Test.wideStorages.Ide = some Test.ide ∧
    Test.ide.Disk_2 = some { Delete := true, rest := 0 } ∧
    ∃ st' ide', PreserveCloudInitDrive Test.wideClient 100 (some Addr.storages) true
          Test.wideStorages = Except.ok (none, st') ∧
        st'.Ide = some ide' ∧ ide'.Disk_2 = some { Delete := true, rest := 0 } :=
  ⟨rfl, rfl, rfl,
    (PreserveCloudInitDrive_heuristic_needs_cloudinit Test.wideClient 100 Test.wideConfig
      Test.wideStorages Test.ide ⟨true, 0⟩ rfl rfl).1 rfl (fun pre post h => by
        have hs : "local-lvm:vm-100-disk-1" = pre ++ "cloudinit" ++ post :=
          GoValue.str.inj (Option.some.inj h)
        have hc : strings.Contains "local-lvm:vm-100-disk-1" "cloudinit" = true :=
          (strings.Contains_iff _ _).2 ⟨pre, post, hs⟩
        revert hc
        decide)⟩

/-- C13 fails as stated: the flag is set, the marker of `ide2` asks for the deletion,
the live value at `ide2` is `local-lvm:vm-100-disk-1`, in which there is no
`cloudinit`, and `PreserveCloudInitDrive` returns with the whole update, the marker
of `ide2` included, as it was: the marker is not cleared. -/
theorem PreserveCloudInitDrive_heuristic_counterexample :
    Test.wideConfig.get "ide2" = some (GoValue.str "local-lvm:vm-100-disk-1") ∧
    strings.Contains "local-lvm:vm-100-disk-1" "cloudinit" = false ∧
    Option.map QemuIdeDisks.Disk_2 Test.wideStorages.Ide =
      some (some { Delete := true, rest := 0 }) ∧
    PreserveCloudInitDrive Test.wideClient 100 (some Addr.storages) true Test.wideStorages =
      Except.ok (none, Test.wideStorages) :=
  ⟨by decide, by decide, by decide, rfl⟩

/-! ## C14 -/

theorem startsWith_append_sep (pat a b : List Char) (c : Char) (hc : c ∉ pat) :
    startsWith pat (a ++ c :: b) = startsWith pat a := by
  induction pat generalizing a with
  | nil => simp [startsWith]
  | cons p ps ih =>
    have hp : p ≠ c := fun h => hc (by simp [h])
    have hps : c ∉ ps := fun h => hc (by simp [h])
    cases a with
    | nil => simp [startsWith, hp]
    | cons x a' => simp [startsWith, ih a' hps]

theorem occursIn_append_sep (pat a b : List Char) (c : Char) (hc : c ∉ pat) :
    occursIn pat (a ++ c :: b) = (occursIn pat a || occursIn pat b) := by
  induction a with
  | nil =>
    cases pat with
    | nil => cases b <;> simp [occursIn, startsWith]
    | cons p ps =>
      have hp : p ≠ c := fun h => hc (by simp [h])
      simp [occursIn, startsWith, hp]
  | cons x a' ih =>
    have h := startsWith_append_sep pat (x :: a') b c hc
    simp only [List.cons_append] at h
    simp [occursIn, h, ih, Bool.or_assoc]

theorem contains_cloudinit_of_volume (backend volume : String) :
    strings.Contains (backend ++ ":" ++ volume) "cloudinit" =
      (strings.Contains backend "cloudinit" || strings.Contains volume "cloudinit") := by
  have h := occursIn_append_sep "cloudinit".data backend.data volume.data ':' (by decide)
  simpa [strings.Contains] using h

/-- C14, as the code has it: a slot is classified by its whole live value.  For
every live value `<storage-backend>:<volume-id>`, `checkAndPreserveCloudInit`
returns, and a present marker is cleared if and only if the name of the storage
backend or the volume-id has `cloudinit` in it; when the marker is not cleared the
memory is as it was. -/
theorem checkAndPreserveCloudInit_classifies_whole_value {σ : Type} (config : Config)
    (diskSlot : String) (p : Ptr σ (Option QemuIdeStorage)) (mem : σ) (m : QemuIdeStorage)
    (backend volume : String) (hp : p.IsCell) (hm : p.load mem = some (some m))
    (hv : config.get diskSlot = some (GoValue.str (backend ++ ":" ++ volume))) :
    ∃ mem', checkAndPreserveCloudInit config diskSlot (some p) mem = Except.ok (config, mem') ∧
      (p.load mem' = some none ↔
        (∃ pre post : String, backend = pre ++ "cloudinit" ++ post) ∨
        (∃ pre post : String, volume = pre ++ "cloudinit" ++ post)) ∧
      (p.load mem' ≠ some none → mem' = mem) := by
  rw [← strings.Contains_iff, ← strings.Contains_iff, checkAndPreserveCloudInit_unfold]
  have hc := contains_cloudinit_of_volume backend volume
  cases hb : strings.Contains backend "cloudinit" <;>
  cases hvol : strings.Contains volume "cloudinit" <;>
  simp only [hb, hvol, Bool.or_false, Bool.or_true, Bool.or_self] at hc
  · exact ⟨mem, by simp [hm, hv, isCloudInitValue, hc], by simp [hm], fun _ => rfl⟩
  all_goals
    obtain ⟨mem', hstore, hload⟩ := hp mem none (by simp [hm])
    exact ⟨mem', by simp [hm, hv, isCloudInitValue, hc, hstore], by simp [hload],
      fun h => absurd hload h⟩

/-- C14, as the code has it, on the value `cloudinit-pool:vm-100-disk-0`: the name of
the storage backend has `cloudinit` in it and the marker is cleared. -/
theorem checkAndPreserveCloudInit_classifies_whole_value_witness :
    ∃ mem', checkAndPreserveCloudInit
          [("ide0", GoValue.str ("cloudinit-pool" ++ ":" ++ "vm-100-disk-0"))] "ide0"
          (some (Ptr.var (Option QemuIdeStorage))) (some ⟨true, 0⟩) =
        Except.ok ([("ide0", GoValue.str ("cloudinit-pool" ++ ":" ++ "vm-100-disk-0"))], mem') ∧
      ((Ptr.var (Option QemuIdeStorage)).load mem' = some none ↔
        (∃ pre post : String, "cloudinit-pool" = pre ++ "cloudinit" ++ post) ∨
        (∃ pre post : String, "vm-100-disk-0" = pre ++ "cloudinit" ++ post)) ∧
      ((Ptr.var (Option QemuIdeStorage)).load mem' ≠ some none → mem' = some ⟨true, 0⟩) :=
  checkAndPreserveCloudInit_classifies_whole_value _ "ide0" _ _ ⟨true, 0⟩ "cloudinit-pool"
    "vm-100-disk-0" (Ptr.var_isCell _) rfl (by decide)

/-- C14 fails as stated: in the live value `cloudinit-pool:vm-100-disk-0` the
volume-id `vm-100-disk-0` has no `cloudinit` in it, and `checkAndPreserveCloudInit`
clears the present marker all the same. -/
theorem checkAndPreserveCloudInit_volume_id_counterexample :
    strings.Contains "vm-100-disk-0" "cloudinit" = false ∧
    checkAndPreserveCloudInit [("ide0", GoValue.str "cloudinit-pool:vm-100-disk-0")] "ide0"
        (some (Ptr.var (Option QemuIdeStorage))) (some ⟨true, 0⟩) =
      Except.ok ([("ide0", GoValue.str "cloudinit-pool:vm-100-disk-0")], none) :=
  ⟨by decide, rfl⟩

/-! ## C15 -/

theorem preserveIfEmpty_ide2_apply (config : Config) (key : String) (ide : QemuIdeDisks)
    (sata : Option QemuSataDisks) (scsi : Option QemuScsiDisks)
    (virtio : Option QemuVirtIODisks) :
    preserveIfEmpty config key (some Addr.Ide) 2 ⟨some ide, sata, scsi, virtio⟩ =
      Except.ok (config,
        ⟨some { ide with Disk_2 := heuristicResult ide.Disk_2 (config.get key) }, sata, scsi,
          virtio⟩) := by
  obtain ⟨d0, d1, d2, d3⟩ := ide
  cases hv : config.get key with
  | none => cases d2 <;>
      simp [preserveIfEmpty, hv, heuristicResult, isCloudInitValue, bind, Except.bind, pure,
        Except.pure]
  | some v =>
    cases v with
    | str s =>
      cases hc : strings.Contains s "cloudinit" <;> cases d2 with
      | none =>
        simp [preserveIfEmpty, hv, hc, GoValue.asString, heuristicResult, isCloudInitValue,
          deref, Ptr.field, Ptr.var, Ptr.pointee, Field.Storages.Ide, bind, Except.bind, pure,
          Except.pure]
      | some m =>
        cases hd : m.Delete <;>
        simp [preserveIfEmpty, hv, hc, hd, GoValue.asString, heuristicResult, isCloudInitValue,
          deref, assign, fieldAddr, Field.Ide.Disk_2,
          Ptr.field, Ptr.var, Ptr.pointee, Field.Storages.Ide, bind, Except.bind, pure,
          Except.pure]
    | _ => cases d2 <;>
      simp [preserveIfEmpty, hv, GoValue.asString, heuristicResult, isCloudInitValue, bind,
        Except.bind, pure, Except.pure]

theorem preserveIfEmpty_ide3_apply (config : Config) (key : String) (ide : QemuIdeDisks)
    (sata : Option QemuSataDisks) (scsi : Option QemuScsiDisks)
    (virtio : Option QemuVirtIODisks) :
    preserveIfEmpty config key (some Addr.Ide) 3 ⟨some ide, sata, scsi, virtio⟩ =
      Except.ok (config,
        ⟨some { ide with Disk_3 := heuristicResult ide.Disk_3 (config.get key) }, sata, scsi,
          virtio⟩) := by
  obtain ⟨d0, d1, d2, d3⟩ := ide
  cases hv : config.get key with
  | none => cases d3 <;>
      simp [preserveIfEmpty, hv, heuristicResult, isCloudInitValue, bind, Except.bind, pure,
        Except.pure]
  | some v =>
    cases v with
    | str s =>
      cases hc : strings.Contains s "cloudinit" <;> cases d3 with
      | none =>
        simp [preserveIfEmpty, hv, hc, GoValue.asString, heuristicResult, isCloudInitValue,
          deref, Ptr.field, Ptr.var, Ptr.pointee, Field.Storages.Ide, bind, Except.bind, pure,
          Except.pure]
      | some m =>
        cases hd : m.Delete <;>
        simp [preserveIfEmpty, hv, hc, hd, GoValue.asString, heuristicResult, isCloudInitValue,
          deref, assign, fieldAddr, Field.Ide.Disk_3,
          Ptr.field, Ptr.var, Ptr.pointee, Field.Storages.Ide, bind, Except.bind, pure,
          Except.pure]
    | _ => cases d3 <;>
      simp [preserveIfEmpty, hv, GoValue.asString, heuristicResult, isCloudInitValue, bind,
        Except.bind, pure, Except.pure]

theorem Step.run_eq_apply (s : Step) (config : Config) (st : QemuStorages) :
    s.run config (some Addr.storages) st = Except.ok (config, s.apply config st) := by
  obtain ⟨ide, sata, scsi, virtio⟩ := st
  cases s <;> cases ide <;> cases sata <;> cases scsi <;>
  simp [Step.run, Step.apply, loadPtr_var, fieldAddr_some, fieldIde_load, fieldSata_load,
    fieldScsi_load, addrIde_load, addrSata_load, addrScsi_load,
    checkAndPreserveCloudInit_ide0, checkAndPreserveCloudInit_ide1,
    checkAndPreserveCloudInit_ide2, checkAndPreserveCloudInit_ide3,
    checkAndPreserveCloudInitSata_sata0, checkAndPreserveCloudInitSata_sata1,
    checkAndPreserveCloudInitSata_sata2, checkAndPreserveCloudInitSata_sata3,
    checkAndPreserveCloudInitSata_sata4, checkAndPreserveCloudInitSata_sata5,
    checkAndPreserveCloudInitScsi_scsi0, checkAndPreserveCloudInitScsi_scsi1,
    checkAndPreserveCloudInitScsi_scsi2, checkAndPreserveCloudInitScsi_scsi3,
    preserveIfEmpty_ide2_apply, preserveIfEmpty_ide3_apply, preserveIfEmpty_nil,
    bind, Except.bind, pure, Except.pure]

theorem runSteps_eq_foldl (order : List Step) (config : Config) (st : QemuStorages) :
    runSteps order config (some Addr.storages) st =
      Except.ok (config, order.foldl (fun acc s => s.apply config acc) st) := by
  induction order generalizing st with
  | nil => rfl
  | cons s rest ih =>
    simp [runSteps, Step.run_eq_apply, ih, bind, Except.bind]

theorem heuristicResult_slotResult (before : Option QemuIdeStorage) (live : Option GoValue) :
    heuristicResult (slotResult before live) live = slotResult before live := by
  cases before <;> cases hc : isCloudInitValue live <;>
  simp [heuristicResult, slotResult, hc]

theorem slotResult_heuristicResult (before : Option QemuIdeStorage) (live : Option GoValue) :
    slotResult (heuristicResult before live) live = slotResult before live := by
  cases before with
  | none => simp [heuristicResult, slotResult]
  | some m =>
    cases hc : isCloudInitValue live <;> cases hd : m.Delete <;>
    simp [heuristicResult, slotResult, hc, hd]

theorem Step.apply_comm (s t : Step) (config : Config) (st : QemuStorages) :
    t.apply config (s.apply config st) = s.apply config (t.apply config st) := by
  obtain ⟨ide, sata, scsi, virtio⟩ := st
  cases s <;> cases t <;> cases ide <;> cases sata <;> cases scsi <;>
  first
  | rfl
  | simp [Step.apply, heuristicResult_slotResult, slotResult_heuristicResult]

theorem foldl_classifiers (config : Config) (st : QemuStorages) :
    Step.classifiers.foldl (fun acc s => s.apply config acc) st = resolveStorages config st := by
  obtain ⟨ide, sata, scsi, virtio⟩ := st
  cases ide <;> cases sata <;> cases scsi <;> rfl

theorem foldl_all (config : Config) (st : QemuStorages) :
    Step.all.foldl (fun acc s => s.apply config acc) st = resolveStorages config st := by
  obtain ⟨ide, sata, scsi, virtio⟩ := st
  cases ide <;> cases sata <;> cases scsi <;>
  simp [Step.all, Step.classifiers, Step.apply, resolveStorages, resolveIde, resolveSata,
    resolveScsi, heuristicResult_slotResult]

/-- C15: no ordering dependency between slots or buses.  Let the fetch succeed with
the snapshot `config`.  (1) The sixteen statements of the pass with the flag set (the
fourteen classifier calls, each under the guard of its bus, and the two calls of
`preserveIfEmpty`), run in any order, the heuristic before the classifiers
included, return, and the final update is the one `PreserveCloudInitDrive` returns
with the flag set.  (2) The fourteen classifier calls, run in any order, return, and
the final update is the one `PreserveCloudInitDrive` returns with the flag not
set. -/
theorem steps_in_any_order (client : Client) (vmr : VmRef) (config : Config)
    (st : QemuStorages) (hfetch : client.GetVmConfig vmr = (config, none)) :
    (∀ order : List Step, List.Perm order Step.all →
      ∃ st', runSteps order config (some Addr.storages) st = Except.ok (config, st') ∧
        PreserveCloudInitDrive client vmr (some Addr.storages) true st =
          Except.ok (none, st')) ∧
    (∀ order : List Step, List.Perm order Step.classifiers →
      ∃ st', runSteps order config (some Addr.storages) st = Except.ok (config, st') ∧
        PreserveCloudInitDrive client vmr (some Addr.storages) false st =
          Except.ok (none, st')) := by
  constructor
  · intro order hperm
    refine ⟨resolveStorages config st, ?_,
      PreserveCloudInitDrive_ok client vmr config true st hfetch⟩
    rw [runSteps_eq_foldl, ← foldl_all,
      hperm.foldl_eq' (fun s _ t _ acc => Step.apply_comm s t config acc) st]
  · intro order hperm
    refine ⟨resolveStorages config st, ?_,
      PreserveCloudInitDrive_ok client vmr config false st hfetch⟩
    rw [runSteps_eq_foldl, ← foldl_classifiers,
      hperm.foldl_eq' (fun s _ t _ acc => Step.apply_comm s t config acc) st]

/-- C15, on the data of the integration test: the statements of the pass run in the
reverse order, the heuristic first, give the update of the pass. -/
theorem steps_in_any_order_witness :
    Test.client.GetVmConfig 100 = (Test.config, none) ∧
    List.Perm Step.all.reverse Step.all ∧
    ∃ st', runSteps Step.all.reverse Test.config (some Addr.storages) Test.storages =
        Except.ok (Test.config, st') ∧
      PreserveCloudInitDrive Test.client 100 (some Addr.storages) true Test.storages =
        Except.ok (none, st') :=
  ⟨rfl, List.reverse_perm _,
    (steps_in_any_order Test.client 100 Test.config Test.storages rfl).1 _
      (List.reverse_perm _)⟩

/-! ## C16 -/

theorem checkAndPreserveCloudInit_var (config : Config) (diskSlot : String)
    (m : Option QemuIdeStorage) :
    checkAndPreserveCloudInit config diskSlot (some (Ptr.var (Option QemuIdeStorage))) m =
      Except.ok (config, slotResult m (config.get diskSlot)) := by
  rw [checkAndPreserveCloudInit_unfold]
  cases m <;> cases hc : isCloudInitValue (config.get diskSlot) <;>
  simp [Ptr.var, slotResult, hc]

theorem checkAndPreserveCloudInitSata_var (config : Config) (diskSlot : String)
    (m : Option QemuSataStorage) :
    checkAndPreserveCloudInitSata config diskSlot (some (Ptr.var (Option QemuSataStorage))) m =
      Except.ok (config, slotResult m (config.get diskSlot)) := by
  rw [checkAndPreserveCloudInitSata_unfold]
  cases m <;> cases hc : isCloudInitValue (config.get diskSlot) <;>
  simp [Ptr.var, slotResult, hc]

theorem checkAndPreserveCloudInitScsi_var (config : Config) (diskSlot : String)
    (m : Option QemuScsiStorage) :
    checkAndPreserveCloudInitScsi config diskSlot (some (Ptr.var (Option QemuScsiStorage))) m =
      Except.ok (config, slotResult m (config.get diskSlot)) := by
  rw [checkAndPreserveCloudInitScsi_unfold]
  cases m <;> cases hc : isCloudInitValue (config.get diskSlot) <;>
  simp [Ptr.var, slotResult, hc]

/-- C16: the three classifiers are one function up to the type of the marker.  For
every live configuration map and slot identifier, let an IDE, a SATA and a SCSI
marker variable be all three present or all three absent.  Then the three classifiers
return with the map as it was, the SATA marker and the SCSI marker are cleared
exactly when the IDE marker is, a marker that is not cleared is left as it was, and
each result is the one function `slotResult` of the marker and the live value.
Through nil pointers all three leave the memory as it was. -/
theorem classifiers_agree (config : Config) (diskSlot : String)
    (ide : Option QemuIdeStorage) (sata : Option QemuSataStorage)
    (scsi : Option QemuScsiStorage) (hsata : sata.isSome = ide.isSome)
    (hscsi : scsi.isSome = ide.isSome) :
    (∃ ide' sata' scsi',
      checkAndPreserveCloudInit config diskSlot (some (Ptr.var (Option QemuIdeStorage))) ide =
        Except.ok (config, ide') ∧
      checkAndPreserveCloudInitSata config diskSlot (some (Ptr.var (Option QemuSataStorage)))
        sata = Except.ok (config, sata') ∧
      checkAndPreserveCloudInitScsi config diskSlot (some (Ptr.var (Option QemuScsiStorage)))
        scsi = Except.ok (config, scsi') ∧
      ((sata ≠ none ∧ sata' = none) ↔ (ide ≠ none ∧ ide' = none)) ∧
      ((scsi ≠ none ∧ scsi' = none) ↔ (ide ≠ none ∧ ide' = none)) ∧
      (¬(ide ≠ none ∧ ide' = none) → ide' = ide ∧ sata' = sata ∧ scsi' = scsi) ∧
      ide' = slotResult ide (config.get diskSlot) ∧
      sata' = slotResult sata (config.get diskSlot) ∧
      scsi' = slotResult scsi (config.get diskSlot)) ∧
    (∀ (σ : Type) (mem : σ),
      checkAndPreserveCloudInit config diskSlot none mem = Except.ok (config, mem) ∧
      checkAndPreserveCloudInitSata config diskSlot none mem = Except.ok (config, mem) ∧
      checkAndPreserveCloudInitScsi config diskSlot none mem = Except.ok (config, mem)) := by
  refine ⟨⟨_, _, _, checkAndPreserveCloudInit_var config diskSlot ide,
    checkAndPreserveCloudInitSata_var config diskSlot sata,
    checkAndPreserveCloudInitScsi_var config diskSlot scsi, ?_, ?_, ?_, rfl, rfl, rfl⟩, ?_⟩
  · cases ide <;> cases sata <;> cases hc : isCloudInitValue (config.get diskSlot) <;>
    simp_all [slotResult]
  · cases ide <;> cases scsi <;> cases hc : isCloudInitValue (config.get diskSlot) <;>
    simp_all [slotResult]
  · cases ide <;> cases sata <;> cases scsi <;>
    cases hc : isCloudInitValue (config.get diskSlot) <;>
    simp_all [slotResult]
  · intro σ mem
    exact ⟨checkAndPreserveCloudInit_nil _ _ _, checkAndPreserveCloudInitSata_nil _ _ _,
      checkAndPreserveCloudInitScsi_nil _ _ _⟩

/-- C16, on present markers and a live cloud-init volume at `sata0`: all three
classifiers clear their marker. -/
theorem classifiers_agree_witness :
    ∃ ide' sata' scsi',
      checkAndPreserveCloudInit [("sata0", GoValue.str "local:cloudinit")] "sata0"
        (some (Ptr.var (Option QemuIdeStorage))) (some ⟨false, 1⟩) =
        Except.ok ([("sata0", GoValue.str "local:cloudinit")], ide') ∧
      checkAndPreserveCloudInitSata [("sata0", GoValue.str "local:cloudinit")] "sata0"
        (some (Ptr.var (Option QemuSataStorage))) (some ⟨true, 2⟩) =
        Except.ok ([("sata0", GoValue.str "local:cloudinit")], sata') ∧
      checkAndPreserveCloudInitScsi [("sata0", GoValue.str "local:cloudinit")] "sata0"
        (some (Ptr.var (Option QemuScsiStorage))) (some ⟨true, 3⟩) =
        Except.ok ([("sata0", GoValue.str "local:cloudinit")], scsi') ∧
      ide' = none ∧ sata' = none ∧ scsi' = none := by
  obtain ⟨ide', sata', scsi', h1, h2, h3, -, -, -, e1, e2, e3⟩ :=
    (classifiers_agree [("sata0", GoValue.str "local:cloudinit")] "sata0"
      (some ⟨false, 1⟩) (some ⟨true, 2⟩) (some ⟨true, 3⟩) rfl rfl).1
  exact ⟨ide', sata', scsi', h1, h2, h3, e1.trans (by decide), e2.trans (by decide),
    e3.trans (by decide)⟩

/-! ## C17 -/

/-- C17: the flag has no observable effect on the pass.  (1) For every client, hence
every live snapshot, and every update, `PreserveCloudInitDrive` with the flag set
and with the flag not set return, with the same error and the same final update.
(2) Through a nil `storages` the two runs have the same outcome as well.  (3) The
reason: once the classifiers have run, the marker of `ide2` (of `ide3`) is already
absent whenever the live value at its key is a cloud-init string, and
`preserveIfEmpty` with `slot` 2 (with `slot` 3) changes nothing. -/
theorem PreserveCloudInitDrive_flag_irrelevant (client : Client) (vmr : VmRef) :
    (∀ st : QemuStorages, ∃ err st',
      PreserveCloudInitDrive client vmr (some Addr.storages) true st =
        Except.ok (err, st') ∧
      PreserveCloudInitDrive client vmr (some Addr.storages) false st =
        Except.ok (err, st')) ∧
    (∀ (σ : Type) (mem : σ),
      PreserveCloudInitDrive client vmr (none : Option (Ptr σ QemuStorages)) true mem =
        PreserveCloudInitDrive client vmr none false mem) ∧
    (∀ (config : Config) (d0 d1 d2 d3 : Option QemuIdeStorage) (sata : Option QemuSataDisks)
        (scsi : Option QemuScsiDisks) (virtio : Option QemuVirtIODisks),
      preserveIfEmpty config "ide2" (some Addr.Ide) 2
          ⟨some ⟨d0, d1, slotResult d2 (config.get "ide2"), d3⟩, sata, scsi, virtio⟩ =
        Except.ok (config,
          ⟨some ⟨d0, d1, slotResult d2 (config.get "ide2"), d3⟩, sata, scsi, virtio⟩) ∧
      preserveIfEmpty config "ide3" (some Addr.Ide) 3
          ⟨some ⟨d0, d1, d2, slotResult d3 (config.get "ide3")⟩, sata, scsi, virtio⟩ =
        Except.ok (config,
          ⟨some ⟨d0, d1, d2, slotResult d3 (config.get "ide3")⟩, sata, scsi, virtio⟩)) := by
  refine ⟨?_, ?_, ?_⟩
  · intro st
    cases herr : (client.GetVmConfig vmr).2 with
    | some e =>
      exact ⟨some e, st, PreserveCloudInitDrive_fetch_error client vmr _ true st e herr,
        PreserveCloudInitDrive_fetch_error client vmr _ false st e herr⟩
    | none =>
      exact ⟨none, resolveStorages (client.GetVmConfig vmr).1 st,
        PreserveCloudInitDrive_ok client vmr _ true st (Prod.ext rfl herr),
        PreserveCloudInitDrive_ok client vmr _ false st (Prod.ext rfl herr)⟩
  · intro σ mem
    cases herr : (client.GetVmConfig vmr).2 with
    | some e =>
      rw [PreserveCloudInitDrive_fetch_error client vmr _ true mem e herr,
        PreserveCloudInitDrive_fetch_error client vmr _ false mem e herr]
    | none =>
      rcases hres : client.GetVmConfig vmr with ⟨config, err⟩
      rw [hres] at herr
      simp only at herr
      subst herr
      simp [PreserveCloudInitDrive, hres, loadPtr, deref, bind, Except.bind]
  · intro config d0 d1 d2 d3 sata scsi virtio
    exact ⟨preserveIfEmpty_ide2_resolved config "ide2" d0 d1 d3 d2 sata scsi virtio,
      preserveIfEmpty_ide3_resolved config "ide3" d0 d1 d2 d3 sata scsi virtio⟩

/-! ## C18 -/

theorem slotResult_idem {α : Type} (before : Option α) (live : Option GoValue) :
    slotResult (slotResult before live) live = slotResult before live := by
  cases before <;> cases hc : isCloudInitValue live <;> simp [slotResult, hc]

theorem resolveStorages_idem (config : Config) (st : QemuStorages) :
    resolveStorages config (resolveStorages config st) = resolveStorages config st := by
  obtain ⟨ide, sata, scsi, virtio⟩ := st
  cases ide <;> cases sata <;> cases scsi <;>
  simp [resolveStorages, resolveIde, resolveSata, resolveScsi, slotResult_idem]

/-- C18: the pass is idempotent for a fixed snapshot.  When the fetch succeeds with
the snapshot `config`, for every update and for either flag in the first run and in
the second, `PreserveCloudInitDrive` returns an update `st'`, and run again on `st'`
against the same snapshot it returns `st'`. -/
theorem PreserveCloudInitDrive_idempotent (client : Client) (vmr : VmRef) (config : Config)
    (first second : Bool) (st : QemuStorages)
    (hfetch : client.GetVmConfig vmr = (config, none)) :
    ∃ st', PreserveCloudInitDrive client vmr (some Addr.storages) first st =
        Except.ok (none, st') ∧
      PreserveCloudInitDrive client vmr (some Addr.storages) second st' =
        Except.ok (none, st') := by
  refine ⟨resolveStorages config st, PreserveCloudInitDrive_ok client vmr config first st hfetch,
    ?_⟩
  rw [PreserveCloudInitDrive_ok client vmr config second _ hfetch, resolveStorages_idem]

/-- C18, on the data of the integration test: the first run clears the marker of
`ide3`, and the second run leaves the update of the first run as it is. -/
theorem PreserveCloudInitDrive_idempotent_witness :
    Test.client.GetVmConfig 100 = (Test.config, none) ∧
    ∃ st', PreserveCloudInitDrive Test.client 100 (some Addr.storages) true Test.storages =
        Except.ok (none, st') ∧
      PreserveCloudInitDrive Test.client 100 (some Addr.storages) true st' =
        Except.ok (none, st') :=
  ⟨rfl, PreserveCloudInitDrive_idempotent Test.client 100 Test.config true true Test.storages
    rfl⟩

end disk
